import Mathlib

/-!
# whooky: a Stripe webhook handler that mails an order reminder

A shallow embedding of `whooky.go`.  Go strings that come out of JSON decoding
are valid UTF-8 and are modelled as `String`; everything written to a buffer is
a byte sequence (`Bytes`), because the hex-decoded payment URL may hold
arbitrary bytes.  A Go function that may panic returns `Except Fault`.
Library calls whose result depends on the outside world (signature check,
JSON decoding, HTTP, SES, the random multipart boundary) are fields of `World`.
-/

namespace Whooky

/-! ## Bytes and strings -/

/-- A Go byte slice, or the bytes of a Go string. -/
abbrev Bytes := List UInt8

/-- The bytes of a Go string that holds valid UTF-8. -/
def utf8 (s : String) : Bytes := s.data.flatMap String.utf8EncodeChar

/-- Go `strings.Repeat`. -/
def strings_Repeat (s : String) : Nat → String
  | 0 => ""
  | n + 1 => s ++ strings_Repeat s n

/-- Go `bytes.Join`: the slices of `s`, with `sep` between neighbours. -/
def bytes_Join (s : List Bytes) (sep : Bytes) : Bytes := List.intercalate sep s

/-- Go error values; only being nil or not matters to the program. -/
abbrev Error := String

/-- How a call that does not return normally ends. -/
inductive Fault where
  /-- A Go run-time panic. -/
  | panic (msg : String)
  /-- A use of a library outside the fragment modelled here. -/
  | unmodelled (what : String)
  deriving DecidableEq, Repr

/-! ## float64 and the `%.2f` verb

A finite float64 is `(-1)^neg * mant * 2^exp`.  Conversions round to nearest,
ties to even, to a 53 bit significand; overflow and subnormals are not
modelled (the program only divides an int64 by 100). -/

structure Float64 where
  neg : Bool
  mant : Nat
  exp : Int
  deriving DecidableEq, Repr

/-- The pair `(num * 2^s, den)` or `(num, den * 2^(-s))`: the fraction `num/den` scaled by `2^s`. -/
def scaleFrac (num den : Nat) (s : Int) : Nat × Nat :=
  if 0 ≤ s then (num * 2 ^ s.toNat, den) else (num, den * 2 ^ (-s).toNat)

/-- Quotient `n / d` rounded to the nearest integer, ties to even. -/
def roundHalfEven (n d : Nat) : Nat :=
  let q := n / d
  let r := n % d
  if d < 2 * r ∨ (2 * r = d ∧ q % 2 = 1) then q + 1 else q

/-- Binary logarithm rounded down, by halving at most `fuel` times. -/
def log2Fuel : Nat → Nat → Nat
  | 0, _ => 0
  | fuel + 1, n => if 2 ≤ n then log2Fuel fuel (n / 2) + 1 else 0

/-- Position of the leading bit of `n`: `2^(ilog2 n) ≤ n < 2^(ilog2 n + 1)` for `0 < n`. -/
def ilog2 (n : Nat) : Nat := log2Fuel n n

/-- The positive rational `num / den` rounded to a 53 bit significand:
the result `(m, e)` stands for `m * 2^e`. -/
def roundToFloat64 (num den : Nat) : Nat × Int :=
  if num = 0 then (0, 0) else
  let s0 : Int := 53 + (ilog2 den : Int) - (ilog2 num : Int)
  let p0 := scaleFrac num den s0
  let s : Int := if p0.1 / p0.2 < 2 ^ 53 then s0 else s0 - 1
  let p := scaleFrac num den s
  (roundHalfEven p.1 p.2, -s)

/-- Go conversion `float64(a)` of an int64. -/
def Float64.ofInt (a : Int) : Float64 :=
  let r := roundToFloat64 a.natAbs 1
  { neg := decide (a < 0), mant := r.1, exp := r.2 }

/-- Go float64 division `x / y`, for finite `x` and finite nonzero `y`. -/
def Float64.div (x y : Float64) : Float64 :=
  let px := scaleFrac x.mant 1 x.exp
  let py := scaleFrac y.mant 1 y.exp
  let r := roundToFloat64 (px.1 * py.2) (px.2 * py.1)
  { neg := x.neg != y.neg, mant := r.1, exp := r.2 }

/-- The float64 constant `100.0`. -/
def Float64.hundred : Float64 := { neg := false, mant := 100, exp := 0 }

/-- The value times 100, rounded to the nearest integer, ties to even:
the digits `%.2f` prints, without the dot. -/
def Float64.hundredths (x : Float64) : Nat :=
  let p := scaleFrac (x.mant * 100) 1 x.exp
  roundHalfEven p.1 p.2

/-- What `%.2f` prints for a finite float64 (strconv rounds the exact decimal
expansion to two places, ties to even, and prints the sign bit). -/
def fmtFloat2 (x : Float64) : String :=
  let n := x.hundredths
  let c := n % 100
  (if x.neg then "-" else "") ++ Nat.repr (n / 100) ++ "."
    ++ String.mk [Nat.digitChar (c / 10), Nat.digitChar (c % 10)]

/-! ## `fmt.Fprintf` restricted to the verbs the program uses -/

/-- An operand of a formatted print. -/
inductive Arg where
  | str (s : Bytes)
  | float64 (f : Float64)

/-- The output of `fmt.Sprintf format args`, for formats made of literal text,
`%s` applied to a string and `%.2f` applied to a float64, with as many
operands as verbs; `none` for anything else. -/
def doPrintf : List Char → List Arg → Option Bytes
  | [], [] => some []
  | [], _ :: _ => none
  | c :: rest, args =>
    if c = '%' then
      match rest, args with
      | 's' :: rest1, Arg.str s :: args1 => (doPrintf rest1 args1).map (s ++ ·)
      | '.' :: '2' :: 'f' :: rest1, Arg.float64 f :: args1 =>
        (doPrintf rest1 args1).map (utf8 (fmtFloat2 f) ++ ·)
      | _, _ => none
    else (doPrintf rest args).map (String.utf8EncodeChar c ++ ·)

/-- Go `fmt.Fprintf` to an in-memory writer whose content so far is `w`:
the new content.  The byte count and the (nil) error are dropped, as the
program drops them. -/
def Fprintf (w : Bytes) (format : String) (args : List Arg) : Except Fault Bytes :=
  match doPrintf format.data args with
  | some out => .ok (w ++ out)
  | none => .error (.unmodelled "Fprintf")

/-! ## `fmt.Sscanf` with the format `"%x"` into a string

Scanning failures are panics inside package fmt that `Sscanf` recovers and
returns as its error; the destination is assigned only after a successful
scan.  The scanner's limit of `2^30` runes per input is not modelled (Stripe
metadata values hold at most 500 characters). -/

/-- Table `space` of package fmt, searched the way `isSpace` does. -/
def isSpace (r : Char) : Bool :=
  let n := r.toNat
  (0x0009 ≤ n && n ≤ 0x000d) || n = 0x0020 || n = 0x0085 || n = 0x00a0 || n = 0x1680
    || (0x2000 ≤ n && n ≤ 0x200a) || (0x2028 ≤ n && n ≤ 0x2029) || n = 0x202f
    || n = 0x205f || n = 0x3000

/-- Method `ss.SkipSpace` with `nlIsSpace = false`: the input that is left,
or the error raised at a newline. -/
def SkipSpace : List Char → Except Error (List Char)
  | [] => .ok []
  | r :: rest =>
    if r = '\r' ∧ rest.head? = some '\n' then SkipSpace rest
    else if r = '\n' then .error "unexpected newline"
    else if !isSpace r then .ok (r :: rest)
    else SkipSpace rest

/-- Function `hexDigit` of package fmt. -/
def hexDigit (d : Char) : Option Nat :=
  let digit := d.toNat
  if 48 ≤ digit ∧ digit ≤ 57 then some (digit - 48)
  else if 97 ≤ digit ∧ digit ≤ 102 then some (10 + digit - 97)
  else if 65 ≤ digit ∧ digit ≤ 70 then some (10 + digit - 65)
  else none

/-- The loop of `ss.hexString` over `ss.hexByte`: the bytes collected until the
end of input or a rune that is not a hex digit in first position; an error when
a first hex digit is followed by the end of input or by a rune that is not a
hex digit. -/
def hexBytes : List Char → Except Error Bytes
  | [] => .ok []
  | [rune1] => if (hexDigit rune1).isSome then .error "unexpected EOF" else .ok []
  | rune1 :: rune2 :: rest =>
    match hexDigit rune1 with
    | none => .ok []
    | some value1 =>
      match hexDigit rune2 with
      | none => .error "illegal hex digit"
      | some value2 => (hexBytes rest).map (UInt8.ofNat (value1 * 16 + value2) :: ·)

/-- Method `ss.hexString`, with the `notEOF` check that precedes it: at the end
of input the error is `io.EOF`. -/
def hexString (input : List Char) : Except Error Bytes :=
  if input.isEmpty then .error "EOF" else
  match hexBytes input with
  | .error e => .error e
  | .ok buf => if buf.isEmpty then .error "no hex data for %x string" else .ok buf

/-- Method `ss.convertString` for the verb `x`. -/
def convertString_x (input : List Char) : Except Error Bytes :=
  match SkipSpace input with
  | .error e => .error e
  | .ok rest => hexString rest

/-- Go `fmt.Sscanf(str, "%x", &v)` for a string `v`: the value of `v`
afterwards, the number of items scanned and the error. -/
def Sscanf_x (str : String) (v : Bytes) : Bytes × Nat × Option Error :=
  match SkipSpace str.data with
  | .error e => (v, 0, some e)
  | .ok rest =>
    match convertString_x rest with
    | .error e => (v, 0, some e)
    | .ok s => (s, 1, none)

/-! ## Package mime/multipart, writing to an in-memory buffer -/

/-- Go `textproto.MIMEHeader`, a map from keys to lists of values. -/
abbrev MIMEHeader := List (String × List String)

/-- Go `multipart.Writer`; the buffer it writes to is passed along separately. -/
structure MultipartWriter where
  boundary : String
  lastpart : Bool
  deriving DecidableEq, Repr

/-- Go string comparison `a < b`, on the runes of valid UTF-8 (the order of the
code points is the order of the encoded bytes). -/
def runesLess : List Char → List Char → Bool
  | _, [] => false
  | [], _ :: _ => true
  | a :: as, b :: bs => a.toNat < b.toNat || (a.toNat = b.toNat && runesLess as bs)

/-- Go `sort.Strings`. -/
def sort_Strings (keys : List String) : List String :=
  keys.insertionSort (fun a b => runesLess b.data a.data = false)

/-- The lines `key: value\r\n` that `CreatePart` writes, keys in sorted order. -/
def headerLines (header : MIMEHeader) : Bytes :=
  (sort_Strings (header.map Prod.fst)).flatMap fun k =>
    ((header.lookup k).getD []).flatMap fun v => utf8 (k ++ ": " ++ v ++ "\r\n")

/-- Method `Writer.CreatePart`: the writer and the buffer afterwards.  Writes
to the part returned go straight to the buffer. -/
def MultipartWriter.CreatePart (w : MultipartWriter) (header : MIMEHeader) (buf : Bytes) :
    MultipartWriter × Bytes :=
  let b := (if w.lastpart then utf8 ("\r\n--" ++ w.boundary ++ "\r\n")
            else utf8 ("--" ++ w.boundary ++ "\r\n"))
    ++ headerLines header ++ utf8 "\r\n"
  ({ w with lastpart := true }, buf ++ b)

/-- Method `Writer.Close`: the writer, the buffer and the error afterwards. -/
def MultipartWriter.Close (w : MultipartWriter) (buf : Bytes) :
    MultipartWriter × Bytes × Option Error :=
  ({ w with lastpart := false }, buf ++ utf8 ("\r\n--" ++ w.boundary ++ "--\r\n"), none)

/-- Method `Writer.Boundary`. -/
def MultipartWriter.Boundary (w : MultipartWriter) : String := w.boundary

/-! ## The records of stripe-go, aws-lambda-go and net/http that the program reads -/

/-- Go `map[string]string`. -/
abbrev StringMap := List (String × String)

/-- Go map index `m[k]` with the comma-ok form: the value (`""` if absent) and presence. -/
def StringMap.index (m : StringMap) (k : String) : String × Bool :=
  match m.lookup k with
  | some v => (v, true)
  | none => ("", false)

structure Address where
  City : String
  Country : String
  Line1 : String
  Line2 : String
  PostalCode : String
  State : String
  deriving DecidableEq, Repr

structure CustomerShippingDetails where
  Address : Address
  Name : String
  Phone : String
  deriving DecidableEq, Repr

/-- Go `stripe.Customer`; `Shipping` is a pointer, nil when the customer has no
shipping details. -/
structure Customer where
  ID : String
  Email : String
  Shipping : Option CustomerShippingDetails
  deriving DecidableEq, Repr

structure PaymentIntent where
  ID : String
  Amount : Int
  Metadata : StringMap
  deriving DecidableEq, Repr

/-- Go `stripe.CheckoutSession`; `Customer` and `PaymentIntent` are pointers. -/
structure CheckoutSession where
  ID : String
  ClientReferenceID : String
  Customer : Option Customer
  PaymentIntent : Option PaymentIntent
  deriving DecidableEq, Repr

/-- The zero value `stripe.Customer{}`. -/
def Customer.zero : Customer := { ID := "", Email := "", Shipping := none }

/-- The zero value `stripe.PaymentIntent{}`. -/
def PaymentIntent.zero : PaymentIntent := { ID := "", Amount := 0, Metadata := [] }

/-- The zero value `stripe.CheckoutSession{}`. -/
def CheckoutSession.zero : CheckoutSession :=
  { ID := "", ClientReferenceID := "", Customer := none, PaymentIntent := none }

structure EventData where
  Raw : Bytes
  deriving DecidableEq, Repr

/-- Go `stripe.Event`; the field `Type` is written `Type_`.  `Data` is a
pointer, nil when the payload has no `data` member. -/
structure Event where
  Type_ : String
  Data : Option EventData
  deriving DecidableEq, Repr

structure APIGatewayProxyRequest where
  Headers : StringMap
  Body : String
  deriving DecidableEq, Repr

structure APIGatewayProxyResponse where
  StatusCode : Int
  Headers : StringMap
  IsBase64Encoded : Bool
  Body : String
  deriving DecidableEq, Repr

/-- Go `http.Request`, as far as the program sets it.  `URL` is the string
given to `http.NewRequest`; parsing and escaping it is the library's business
(`World.NewRequest` says whether it parses, `World.Do` what the server answers). -/
structure Request where
  Method : String
  URL : String
  BasicAuth : Option (String × String)
  deriving DecidableEq, Repr

/-- Go `http.Response`; `Body` is what `ioutil.ReadAll` reads from it. -/
structure Response where
  StatusCode : Int
  Body : Bytes
  deriving DecidableEq, Repr

/-- The collaborators outside the program. -/
structure World where
  /-- Go `webhook.ConstructEvent (payload, header, secret)`. -/
  ConstructEvent : Bytes → String → String → Event × Option Error
  /-- Method `UnmarshalJSON` on a zero `stripe.CheckoutSession`. -/
  UnmarshalCheckoutSession : Bytes → CheckoutSession × Option Error
  /-- Method `UnmarshalJSON` on a zero `stripe.Customer`. -/
  UnmarshalCustomer : Bytes → Customer × Option Error
  /-- Method `UnmarshalJSON` on a zero `stripe.PaymentIntent`. -/
  UnmarshalPaymentIntent : Bytes → PaymentIntent × Option Error
  /-- The error of `http.NewRequest (method, url, nil)`, nil when the URL parses. -/
  NewRequest : String → String → Option Error
  /-- Method `Client.Do`: the response pointer and the error.  On a transport
  failure the response is nil and the error is not. -/
  Do : Request → Option Response × Option Error
  /-- The boundary that `multipart.NewWriter` draws at random. -/
  randomBoundary : String
  /-- The error of `session.NewSession` for a region. -/
  NewSession : String → Option Error
  /-- The error of `SendRawEmail` for a raw message. -/
  SendRawEmail : Bytes → Option Error

/-- What the program asks of its collaborators, in the order it asks. -/
inductive Call where
  | customer_retrieval (id : String)
  | payment_intent_retrieval (id : String)
  | unsendable (header message : Bytes)
  | Do (request : Request)
  | UnmarshalJSON (data : Bytes)
  | SendRawEmail (data : Bytes)
  deriving DecidableEq, Repr

/-- Reading a field through a pointer: a nil pointer panics. -/
def deref {α : Type} : Option α → Except Fault α
  | some a => .ok a
  | none => .error (.panic "invalid memory address or nil pointer dereference")

/-- Go `multipart.NewWriter`. -/
def NewWriter (w : World) : MultipartWriter := { boundary := w.randomBoundary, lastpart := false }

/-! ## The program -/

def secret : String := "whsec_YOURSTRIPEWEBHOOKSECRET"
def stripe_private_test : String := "sk_test_YOURSTRIPETESTAPIKEY"
def stripe_private_live : String := "sk_live_YOURSTRIPELIVEAPIKEY"
def sender : String := "order_notifier_bot@yourdomain.com"
def recipient : String := "you@youremailaddress.com"
def subject : String := "order"
def region : String := "us-west-2"

def acknowledgment (body : String) : APIGatewayProxyResponse × Option Error :=
  let result : APIGatewayProxyResponse :=
    { StatusCode := 200,
      Headers := [("Content-Type", "text/html")],
      IsBase64Encoded := false,
      Body := body }
  (result, none)

/-- The session and the error returned, or the panic of reading
`event.Data.Raw` through a nil `Data`. -/
def checkout_session_retrieval (w : World) (request : APIGatewayProxyRequest) :
    Except Fault (CheckoutSession × Option Error) :=
  let result := CheckoutSession.zero
  let (signature, present) := request.Headers.index "Stripe-Signature"
  if ! present then .ok (result, some "missing stripe header") else
  let (event, err) := w.ConstructEvent (utf8 request.Body) signature secret
  if err ≠ none then .ok (result, err) else
  if event.Type_ ≠ "checkout.session.completed" then
    .ok (result, some "unexpected event type") else
  match deref event.Data with
  | .error fault => .error fault
  | .ok data => .ok (w.UnmarshalCheckoutSession data.Raw)

def customer_retrieval (w : World) (id : String) :
    List Call × Except Fault (Customer × Option Error) :=
  let result := Customer.zero
  let url := "https://api.stripe.com/v1/customers/" ++ id
  let err := w.NewRequest "GET" url
  if err ≠ none then ([], .ok (result, err)) else
  let request : Request := { Method := "GET", URL := url, BasicAuth := some (stripe_private_test, "") }
  let (response, err) := w.Do request
  -- `defer response.Body.Close ()` reads `response.Body` before `err` is looked at
  match response with
  | none => ([.Do request], deref none)
  | some response =>
    if err ≠ none then ([.Do request], .ok (result, err)) else
    if response.StatusCode ≠ 200 then ([.Do request], .ok (result, some "unknown customer")) else
    let response_json := response.Body
    ([.Do request, .UnmarshalJSON response_json], .ok (w.UnmarshalCustomer response_json))

def payment_intent_retrieval (w : World) (id : String) :
    List Call × Except Fault (PaymentIntent × Option Error) :=
  let result := PaymentIntent.zero
  let url := "https://api.stripe.com/v1/payment_intents/" ++ id
  let err := w.NewRequest "GET" url
  if err ≠ none then ([], .ok (result, err)) else
  let request : Request := { Method := "GET", URL := url, BasicAuth := some (stripe_private_test, "") }
  let (response, err) := w.Do request
  match response with
  | none => ([.Do request], deref none)
  | some response =>
    if err ≠ none then ([.Do request], .ok (result, err)) else
    if response.StatusCode ≠ 200 then
      ([.Do request], .ok (result, some "couldn't retrieve payment intent")) else
    let response_json := response.Body
    ([.Do request, .UnmarshalJSON response_json], .ok (w.UnmarshalPaymentIntent response_json))

/-- The multipart writer and the content of `message` after the call, and the error. -/
def email_body (w : World) (checkout_session : CheckoutSession) (customer : Customer)
    (payment_intent : PaymentIntent) (message : Bytes) :
    Except Fault ((MultipartWriter × Bytes) × Option Error) := do
  let payment_url : Bytes := []
  let result := NewWriter w
  let header : MIMEHeader :=
    [("Content-Type", ["text/plain; charset=utf-8"]),
     ("Content-Transfer-Encoding", ["quoted-printable"])]
  let amount := (Float64.ofInt payment_intent.Amount).div Float64.hundred
  let (company, _) := payment_intent.Metadata.index "company"
  let (quantity, _) := payment_intent.Metadata.index "quantity"
  let (courier_name, _) := payment_intent.Metadata.index "courier_name"
  let (payment_link, _) := payment_intent.Metadata.index "payment_link"
  let (payment_url, _, _) := Sscanf_x payment_link payment_url
  let (result, body) := result.CreatePart header message
  let body ← Fprintf body "checkout session ID: %s\n\n" [.str (utf8 checkout_session.ID)]
  let body ←
    if checkout_session.ClientReferenceID ≠ "" then
      Fprintf body "customer reference: %s\n\n" [.str (utf8 checkout_session.ClientReferenceID)]
    else pure body
  let body ← Fprintf body "email: %s\n\n" [.str (utf8 customer.Email)]
  let shipping ← deref customer.Shipping
  let body ← Fprintf body "phone: %s\n\n" [.str (utf8 shipping.Phone)]
  let body ←
    if quantity = "1" then
      Fprintf body "order of 1 item at £%.2f to \n\n" [.float64 amount]
    else
      Fprintf body "order of %s items at £%.2f to \n\n" [.str (utf8 quantity), .float64 amount]
  let shipping ← deref customer.Shipping
  let body ←
    if company ≠ "" then
      Fprintf body "%s\n%s\n" [.str (utf8 shipping.Name), .str (utf8 company)]
    else
      Fprintf body "%s\n" [.str (utf8 shipping.Name)]
  let shipping ← deref customer.Shipping
  let body ←
    if shipping.Address.Line2 = "" then
      Fprintf body (strings_Repeat "%s\n" 5 ++ "\n")
        [.str (utf8 shipping.Address.Line1),
         .str (utf8 shipping.Address.City),
         .str (utf8 shipping.Address.State),
         .str (utf8 shipping.Address.PostalCode),
         .str (utf8 shipping.Address.Country)]
    else
      Fprintf body (strings_Repeat "%s\n" 6 ++ "\n")
        [.str (utf8 shipping.Address.Line1),
         .str (utf8 shipping.Address.Line2),
         .str (utf8 shipping.Address.City),
         .str (utf8 shipping.Address.State),
         .str (utf8 shipping.Address.PostalCode),
         .str (utf8 shipping.Address.Country)]
  let body ← Fprintf body "to ship by %s payable at\n\n%s\n"
    [.str (utf8 courier_name), .str payment_url]
  return ((result, body), none)

/-- The calls made and the error returned. -/
def unsendable (w : World) (header message : Bytes) : List Call × Option Error :=
  let params := bytes_Join [header, message] []
  let err := w.NewSession region
  if err = none then ([.SendRawEmail params], w.SendRawEmail params) else ([], err)

def header_of (boundary : String) : Bytes :=
  let header : Bytes := []
  let header := header ++ utf8 "MIME-Version: 1.0\n"
  let header := header ++ utf8 "Content-Disposition: inline\n"
  let header := header ++ utf8 ("Content-Type: multipart/mixed; boundary=\"" ++ boundary ++ "\"\n")
  let header := header ++ utf8 ("From: " ++ sender ++ "\n")
  let header := header ++ utf8 ("To: " ++ recipient ++ "\n")
  let header := header ++ utf8 ("Subject: " ++ subject ++ "\n\n")
  header

/-- The calls made, in order, and how the invocation ends: a panic, or the
response and error returned to the lambda run-time. -/
def handler (w : World) (request : APIGatewayProxyRequest) :
    List Call × Except Fault (APIGatewayProxyResponse × Option Error) :=
  let message : Bytes := []
  match checkout_session_retrieval w request with
  | .error fault => ([], .error fault)
  | .ok (checkout_session, err) =>
  if err ≠ none then ([], .ok (acknowledgment "couldn't retrieve checkout session")) else
  match checkout_session.Customer with
  | none => ([], .ok (acknowledgment "unspecified customer"))
  | some customer_ref =>
  let (calls1, r) := customer_retrieval w customer_ref.ID
  let trace := Call.customer_retrieval customer_ref.ID :: calls1
  match r with
  | .error fault => (trace, .error fault)
  | .ok (customer, err) =>
  if err ≠ none then (trace, .ok (acknowledgment "couldn't retrieve customer")) else
  match checkout_session.PaymentIntent with
  | none => (trace, .ok (acknowledgment "unspecified payment intent"))
  | some payment_intent_ref =>
  let (calls2, r) := payment_intent_retrieval w payment_intent_ref.ID
  let trace := trace ++ Call.payment_intent_retrieval payment_intent_ref.ID :: calls2
  match r with
  | .error fault => (trace, .error fault)
  | .ok (payment_intent, err) =>
  if err ≠ none then (trace, .ok (acknowledgment "couldn't retrieve payment intent")) else
  match email_body w checkout_session customer payment_intent message with
  | .error fault => (trace, .error fault)
  | .ok ((body, message), err) =>
  if err ≠ none then (trace, .ok (acknowledgment "couldn't compose email")) else
  let (body, message, close_err) := body.Close message
  if close_err ≠ none then (trace, .ok (acknowledgment "couldn't compose email")) else
  let header := header_of body.Boundary
  let (calls3, err) := unsendable w header message
  let trace := trace ++ Call.unsendable header message :: calls3
  if err ≠ none then (trace, .ok (acknowledgment "couldn't send email")) else
  (trace, .ok (acknowledgment "ok"))

/-! ## Names for what the statements below talk about -/

/-- Go map index `m[k]`: the value, `""` when the key is absent. -/
def StringMap.get (m : StringMap) (k : String) : String := (m.lookup k).getD ""

/-- The eight acknowledgment strings. -/
def acknowledgments : List String :=
  ["couldn't retrieve checkout session", "unspecified customer", "couldn't retrieve customer",
   "unspecified payment intent", "couldn't retrieve payment intent", "couldn't compose email",
   "couldn't send email", "ok"]

/-- The displayed amount: `float64(Amount) / 100.0` under `%.2f`. -/
def amount_text (payment_intent : PaymentIntent) : Bytes :=
  utf8 (fmtFloat2 ((Float64.ofInt payment_intent.Amount).div Float64.hundred))

/-- The URL that `Sscanf` leaves in `payment_url`. -/
def payment_url_of (payment_intent : PaymentIntent) : Bytes :=
  (Sscanf_x (payment_intent.Metadata.get "payment_link") []).1

/-- The header of the text part, as `CreatePart` writes it for the first part. -/
def part_header (boundary : String) : Bytes :=
  utf8 ("--" ++ boundary ++ "\r\n")
    ++ (utf8 "Content-Transfer-Encoding: quoted-printable\r\n"
    ++ (utf8 "Content-Type: text/plain; charset=utf-8\r\n" ++ utf8 "\r\n"))

/-- Lines for the session, the customer reference, the email and the phone. -/
def text_contact (cs : CheckoutSession) (customer : Customer)
    (shipping : CustomerShippingDetails) : Bytes :=
  utf8 "checkout session ID: " ++ (utf8 cs.ID ++ utf8 "\n\n")
    ++ ((if cs.ClientReferenceID ≠ "" then
          utf8 "customer reference: " ++ (utf8 cs.ClientReferenceID ++ utf8 "\n\n") else [])
    ++ (utf8 "email: " ++ (utf8 customer.Email ++ utf8 "\n\n")
    ++ (utf8 "phone: " ++ (utf8 shipping.Phone ++ utf8 "\n\n"))))

/-- The order line and the blank line after it. -/
def text_order (payment_intent : PaymentIntent) : Bytes :=
  if payment_intent.Metadata.get "quantity" = "1" then
    utf8 "order of 1 item at £" ++ (amount_text payment_intent ++ utf8 " to \n\n")
  else
    utf8 "order of " ++ (utf8 (payment_intent.Metadata.get "quantity") ++ (utf8 " items at £"
      ++ (amount_text payment_intent ++ utf8 " to \n\n")))

/-- The recipient line, and the company line when there is a company. -/
def text_name (shipping : CustomerShippingDetails) (payment_intent : PaymentIntent) : Bytes :=
  if payment_intent.Metadata.get "company" ≠ "" then
    utf8 shipping.Name ++ (utf8 "\n" ++ (utf8 (payment_intent.Metadata.get "company") ++ utf8 "\n"))
  else utf8 shipping.Name ++ utf8 "\n"

/-- The address block and the blank line after it. -/
def text_address (shipping : CustomerShippingDetails) : Bytes :=
  if shipping.Address.Line2 = "" then
    utf8 shipping.Address.Line1 ++ (utf8 "\n" ++ (utf8 shipping.Address.City ++ (utf8 "\n"
      ++ (utf8 shipping.Address.State ++ (utf8 "\n" ++ (utf8 shipping.Address.PostalCode
      ++ (utf8 "\n" ++ (utf8 shipping.Address.Country ++ (utf8 "\n" ++ utf8 "\n")))))))))
  else
    utf8 shipping.Address.Line1 ++ (utf8 "\n" ++ (utf8 shipping.Address.Line2 ++ (utf8 "\n"
      ++ (utf8 shipping.Address.City ++ (utf8 "\n"
      ++ (utf8 shipping.Address.State ++ (utf8 "\n" ++ (utf8 shipping.Address.PostalCode
      ++ (utf8 "\n" ++ (utf8 shipping.Address.Country ++ (utf8 "\n" ++ utf8 "\n")))))))))))

/-- The closing line, ended by the payment URL and a newline. -/
def text_closing (payment_intent : PaymentIntent) : Bytes :=
  utf8 "to ship by " ++ (utf8 (payment_intent.Metadata.get "courier_name")
    ++ (utf8 " payable at\n\n" ++ (payment_url_of payment_intent ++ utf8 "\n")))

/-- Everything `email_body` writes before the payment URL. -/
def text_before_url (cs : CheckoutSession) (customer : Customer)
    (shipping : CustomerShippingDetails) (payment_intent : PaymentIntent) : Bytes :=
  text_contact cs customer shipping ++ (text_order payment_intent
    ++ (text_name shipping payment_intent ++ (text_address shipping
    ++ (utf8 "to ship by " ++ (utf8 (payment_intent.Metadata.get "courier_name")
    ++ utf8 " payable at\n\n")))))

/-- The character `c` is the hex digit, in lower or upper case, of the value `n`. -/
def isHexDigitOf (c : Char) (n : Nat) : Bool :=
  "0123456789abcdef".data.get? n = some c || "0123456789ABCDEF".data.get? n = some c

/-- The characters are a hex encoding of the bytes: two hex digits per byte,
high half first, each in either letter case. -/
def hexEncodes : List Char → Bytes → Bool
  | [], [] => true
  | hi :: lo :: cs, b :: bs =>
    isHexDigitOf hi (b.toNat / 16) && isHexDigitOf lo (b.toNat % 16) && hexEncodes cs bs
  | _, _ => false

/-- The character is one of the 22 hex digits. -/
def isHexChar (c : Char) : Bool := "0123456789abcdefABCDEF".data.contains c

/-- A valid hex encoding as the specification reads it: not empty, an even
number of characters, hex digits only. -/
def validHex (s : String) : Bool :=
  !s.data.isEmpty && s.data.length % 2 = 0 && s.data.all isHexChar

/-- The leading run of hex digits of a string. -/
def hexRun (s : String) : List Char := s.data.takeWhile isHexChar

/-! ## Sample inputs -/

namespace Sample

def shipping : CustomerShippingDetails :=
  { Address := { City := "Leeds", Country := "GB", Line1 := "1 High St", Line2 := "",
                 PostalCode := "LS1 1AA", State := "West Yorkshire" },
    Name := "Jane Doe", Phone := "0113 496 0000" }

def customer : Customer := { ID := "cus_1", Email := "jane@example.org", Shipping := some shipping }

/-- The payment link is the hex encoding of `https://pay.example/1`. -/
def payment_intent : PaymentIntent :=
  { ID := "pi_1", Amount := 1999,
    Metadata := [("quantity", "1"), ("courier_name", "ACME"),
                 ("payment_link", "68747470733a2f2f7061792e6578616d706c652f31")] }

def session : CheckoutSession :=
  { ID := "cs_1", ClientReferenceID := "",
    Customer := some { Customer.zero with ID := "cus_1" },
    PaymentIntent := some { PaymentIntent.zero with ID := "pi_1" } }

/-- A signed request. -/
def request : APIGatewayProxyRequest :=
  { Headers := [("Stripe-Signature", "t=1,v1=00")], Body := "{}" }

/-- A request with no signature header. -/
def request_unsigned : APIGatewayProxyRequest :=
  { Headers := [("Content-Type", "application/json")], Body := "{}" }

/-- All collaborators succeed. -/
def world : World :=
  { ConstructEvent := fun _ _ _ =>
      ({ Type_ := "checkout.session.completed", Data := some { Raw := [] } }, none),
    UnmarshalCheckoutSession := fun _ => (session, none),
    UnmarshalCustomer := fun _ => (customer, none),
    UnmarshalPaymentIntent := fun _ => (payment_intent, none),
    NewRequest := fun _ _ => none,
    Do := fun _ => (some { StatusCode := 200, Body := [] }, none),
    randomBoundary := "0123456789abcdef",
    NewSession := fun _ => none,
    SendRawEmail := fun _ => none }

/-- The connection to the Stripe API fails: `Do` returns no response and an error. -/
def world_offline : World :=
  { world with Do := fun _ => (none, some "dial tcp: i/o timeout") }

/-- The event verifies but is of another type. -/
def world_other_event : World :=
  { world with ConstructEvent := fun _ _ _ =>
      ({ Type_ := "charge.succeeded", Data := some { Raw := [] } }, none) }

/-- The event verifies and is of the right type, but its payload has no `data` member. -/
def world_no_data : World :=
  { world with ConstructEvent := fun _ _ _ =>
      ({ Type_ := "checkout.session.completed", Data := none }, none) }

/-- The session has no customer reference. -/
def world_no_customer : World :=
  { world with UnmarshalCheckoutSession := fun _ => ({ session with Customer := none }, none) }

/-- The session has no payment intent reference. -/
def world_no_intent : World :=
  { world with
    UnmarshalCheckoutSession := fun _ => ({ session with PaymentIntent := none }, none) }

/-- The session has no payment intent reference and the Stripe API answers 404. -/
def world_no_intent_404 : World :=
  { world_no_intent with Do := fun _ => (some { StatusCode := 404, Body := [] }, none) }

/-- The Stripe API answers 404. -/
def world_404 : World :=
  { world with Do := fun _ => (some { StatusCode := 404, Body := [] }, none) }

/-- Three items, a company and a second address line. -/
def payment_intent_three : PaymentIntent :=
  { payment_intent with
    Metadata := [("quantity", "3"), ("company", "Doe Ltd"), ("courier_name", "ACME"),
                 ("payment_link", "68747470733a2f2f7061792e6578616d706c652f31")] }

def shipping_two_lines : CustomerShippingDetails :=
  { shipping with Address := { shipping.Address with Line2 := "Flat 2" } }

def customer_two_lines : Customer := { customer with Shipping := some shipping_two_lines }

/-- The payment link is two hex pairs followed by two characters that are not hex digits. -/
def payment_intent_trailing : PaymentIntent :=
  { payment_intent with
    Metadata := [("quantity", "1"), ("courier_name", "ACME"), ("payment_link", "6874zz")] }

/-- The payment link has an odd number of hex digits. -/
def payment_intent_odd : PaymentIntent :=
  { payment_intent with
    Metadata := [("quantity", "1"), ("courier_name", "ACME"), ("payment_link", "687")] }

end Sample

/-! ## Names for the statements about the amount, the call order and dispatch -/

/-- The amount as the specification words it: the decimal numeral of `a div 100`,
a dot, and `a mod 100` as exactly two digits. -/
def two_places (a : Nat) : String :=
  Nat.repr (a / 100) ++ "."
    ++ String.mk [Nat.digitChar (a % 100 / 10), Nat.digitChar (a % 100 % 10)]

/-- The calls that mark a stage of the pipeline: the two fetches and the mail send. -/
def Call.isStage : Call → Bool
  | .customer_retrieval _ => true
  | .payment_intent_retrieval _ => true
  | .unsendable _ _ => true
  | _ => false

/-- The calls that leave the process: HTTP requests and the SES call. -/
def Call.isRemote : Call → Bool
  | .Do _ => true
  | .SendRawEmail _ => true
  | _ => false

/-- The request that `customer_retrieval` sends for an id. -/
def customer_request (id : String) : Request :=
  { Method := "GET", URL := "https://api.stripe.com/v1/customers/" ++ id,
    BasicAuth := some (stripe_private_test, "") }

/-- The request that `payment_intent_retrieval` sends for an id. -/
def payment_intent_request (id : String) : Request :=
  { Method := "GET", URL := "https://api.stripe.com/v1/payment_intents/" ++ id,
    BasicAuth := some (stripe_private_test, "") }

/-- The writer and the buffer after each part of a list, in order, is created
with `CreatePart` and its content is written to it. -/
def write_parts (w : MultipartWriter) (buf : Bytes) :
    List (MIMEHeader × Bytes) → MultipartWriter × Bytes
  | [] => (w, buf)
  | (header, content) :: rest =>
    write_parts (w.CreatePart header buf).1 ((w.CreatePart header buf).2 ++ content) rest

/-- The bytes of a closed multipart message with a boundary and a list of
parts (header and content): what a fresh writer leaves in an empty buffer
after the parts are written and `Close` is called. -/
def multipart_message (boundary : String) (parts : List (MIMEHeader × Bytes)) : Bytes :=
  let r := write_parts { boundary := boundary, lastpart := false } [] parts
  (r.1.Close r.2).2.1

/-- The header that `email_body` gives to its one part. -/
def text_part_header : MIMEHeader :=
  [("Content-Type", ["text/plain; charset=utf-8"]),
   ("Content-Transfer-Encoding", ["quoted-printable"])]

/-- The whole text that `email_body` writes after the part header. -/
def text_part (cs : CheckoutSession) (customer : Customer) (shipping : CustomerShippingDetails)
    (payment_intent : PaymentIntent) : Bytes :=
  text_contact cs customer shipping ++ (text_order payment_intent
    ++ (text_name shipping payment_intent ++ (text_address shipping
    ++ text_closing payment_intent)))

namespace Sample

/-- One minor unit more than `100 * 2^46`. -/
def payment_intent_huge : PaymentIntent := { payment_intent with Amount := 7036874417766401 }

/-- A customer as the Stripe API returns it with `"shipping": null`. -/
def customer_no_shipping : Customer := { customer with Shipping := none }

/-- Every collaborator succeeds; the customer fetched has no shipping details. -/
def world_no_shipping : World :=
  { world with UnmarshalCustomer := fun _ => (customer_no_shipping, none) }

/-- Both fetches succeed (the customer has no shipping details); SES is down. -/
def world_no_shipping_mail_down : World :=
  { world_no_shipping with SendRawEmail := fun _ => some "ses: service unavailable" }

/-- Both fetches succeed; SES rejects the message. -/
def world_mail_down : World :=
  { world with SendRawEmail := fun _ => some "ses: message rejected" }

/-- The MIME body that `handler` hands to `unsendable` in `world`. -/
def mail_body : Bytes :=
  utf8 ("--0123456789abcdef\r\n"
    ++ "Content-Transfer-Encoding: quoted-printable\r\n"
    ++ "Content-Type: text/plain; charset=utf-8\r\n\r\n"
    ++ "checkout session ID: cs_1\n\n"
    ++ "email: jane@example.org\n\n"
    ++ "phone: 0113 496 0000\n\n"
    ++ "order of 1 item at £19.99 to \n\n"
    ++ "Jane Doe\n"
    ++ "1 High St\nLeeds\nWest Yorkshire\nLS1 1AA\nGB\n\n"
    ++ "to ship by ACME payable at\n\nhttps://pay.example/1\n"
    ++ "\r\n--0123456789abcdef--\r\n")

end Sample

/-! # Theorems -/

/-! ## What each formatted print of `email_body` writes -/

theorem Fprintf_session (w b : Bytes) :
    Fprintf w "checkout session ID: %s\n\n" [.str b]
      = .ok (w ++ (utf8 "checkout session ID: " ++ (b ++ utf8 "\n\n"))) := rfl

theorem Fprintf_reference (w b : Bytes) :
    Fprintf w "customer reference: %s\n\n" [.str b]
      = .ok (w ++ (utf8 "customer reference: " ++ (b ++ utf8 "\n\n"))) := rfl

theorem Fprintf_email (w b : Bytes) :
    Fprintf w "email: %s\n\n" [.str b] = .ok (w ++ (utf8 "email: " ++ (b ++ utf8 "\n\n"))) := rfl

theorem Fprintf_phone (w b : Bytes) :
    Fprintf w "phone: %s\n\n" [.str b] = .ok (w ++ (utf8 "phone: " ++ (b ++ utf8 "\n\n"))) := rfl

theorem Fprintf_order_one (w : Bytes) (f : Float64) :
    Fprintf w "order of 1 item at £%.2f to \n\n" [.float64 f]
      = .ok (w ++ (utf8 "order of 1 item at £" ++ (utf8 (fmtFloat2 f) ++ utf8 " to \n\n"))) := rfl

theorem Fprintf_order_many (w q : Bytes) (f : Float64) :
    Fprintf w "order of %s items at £%.2f to \n\n" [.str q, .float64 f]
      = .ok (w ++ (utf8 "order of " ++ (q ++ (utf8 " items at £"
          ++ (utf8 (fmtFloat2 f) ++ utf8 " to \n\n"))))) := rfl

theorem Fprintf_name_company (w n c : Bytes) :
    Fprintf w "%s\n%s\n" [.str n, .str c]
      = .ok (w ++ (n ++ (utf8 "\n" ++ (c ++ utf8 "\n")))) := rfl

theorem Fprintf_name (w n : Bytes) :
    Fprintf w "%s\n" [.str n] = .ok (w ++ (n ++ utf8 "\n")) := rfl

theorem Fprintf_address5 (w a b c d e : Bytes) :
    Fprintf w (strings_Repeat "%s\n" 5 ++ "\n") [.str a, .str b, .str c, .str d, .str e]
      = .ok (w ++ (a ++ (utf8 "\n" ++ (b ++ (utf8 "\n" ++ (c ++ (utf8 "\n" ++ (d ++ (utf8 "\n"
          ++ (e ++ (utf8 "\n" ++ utf8 "\n"))))))))))) := rfl

theorem Fprintf_address6 (w a b c d e f : Bytes) :
    Fprintf w (strings_Repeat "%s\n" 6 ++ "\n") [.str a, .str b, .str c, .str d, .str e, .str f]
      = .ok (w ++ (a ++ (utf8 "\n" ++ (b ++ (utf8 "\n" ++ (c ++ (utf8 "\n" ++ (d ++ (utf8 "\n"
          ++ (e ++ (utf8 "\n" ++ (f ++ (utf8 "\n" ++ utf8 "\n"))))))))))))) := rfl

theorem Fprintf_closing (w c u : Bytes) :
    Fprintf w "to ship by %s payable at\n\n%s\n" [.str c, .str u]
      = .ok (w ++ (utf8 "to ship by " ++ (c ++ (utf8 " payable at\n\n" ++ (u ++ utf8 "\n"))))) := rfl


theorem headerLines_text :
    headerLines [("Content-Type", ["text/plain; charset=utf-8"]),
        ("Content-Transfer-Encoding", ["quoted-printable"])]
      = utf8 "Content-Transfer-Encoding: quoted-printable\r\n"
          ++ utf8 "Content-Type: text/plain; charset=utf-8\r\n" := by
  decide

theorem CreatePart_text (w : World) (message : Bytes) :
    (NewWriter w).CreatePart [("Content-Type", ["text/plain; charset=utf-8"]),
        ("Content-Transfer-Encoding", ["quoted-printable"])] message
      = ({ boundary := w.randomBoundary, lastpart := true },
          message ++ part_header w.randomBoundary) := by
  simp only [MultipartWriter.CreatePart, NewWriter, headerLines_text, part_header,
    List.append_assoc]
  rfl

theorem StringMap.index_fst (m : StringMap) (k : String) : (m.index k).1 = m.get k := by
  unfold StringMap.index StringMap.get
  cases m.lookup k <;> rfl

/-- With shipping details present, `email_body` returns: the buffer gains the
part header and the six sections of the text, and the error is nil. -/
theorem email_body_eq (w : World) (cs : CheckoutSession) (customer : Customer)
    (shipping : CustomerShippingDetails) (payment_intent : PaymentIntent) (message : Bytes)
    (h : customer.Shipping = some shipping) :
    email_body w cs customer payment_intent message
      = .ok (({ boundary := w.randomBoundary, lastpart := true },
          message ++ (part_header w.randomBoundary ++ (text_contact cs customer shipping
            ++ (text_order payment_intent ++ (text_name shipping payment_intent
            ++ (text_address shipping ++ text_closing payment_intent)))))), none) := by
  simp only [email_body, h, deref, CreatePart_text, StringMap.index_fst, text_contact,
    text_order, text_name, text_address, text_closing, amount_text, payment_url_of]
  by_cases h1 : cs.ClientReferenceID = "" <;>
  by_cases h2 : payment_intent.Metadata.get "quantity" = "1" <;>
  by_cases h3 : payment_intent.Metadata.get "company" = "" <;>
  by_cases h4 : shipping.Address.Line2 = "" <;>
  simp only [h1, h2, h3, h4, Fprintf_session, Fprintf_reference, Fprintf_email, Fprintf_phone,
    Fprintf_order_one, Fprintf_order_many, Fprintf_name_company, Fprintf_name,
    Fprintf_address5, Fprintf_address6, Fprintf_closing, bind, Except.bind, pure, Except.pure,
    ne_eq, not_true_eq_false, not_false_eq_true, if_true, if_false, ↓reduceIte,
    List.append_assoc, List.nil_append]

/-- Without shipping details `email_body` panics when it reads the phone number. -/
theorem email_body_nil_shipping (w : World) (cs : CheckoutSession) (customer : Customer)
    (payment_intent : PaymentIntent) (message : Bytes) (h : customer.Shipping = none) :
    email_body w cs customer payment_intent message
      = .error (.panic "invalid memory address or nil pointer dereference") := by
  simp only [email_body, h, deref, CreatePart_text, StringMap.index_fst]
  by_cases h1 : cs.ClientReferenceID = "" <;>
  simp only [h1, Fprintf_session, Fprintf_reference, Fprintf_email, bind, Except.bind, pure,
    Except.pure, ne_eq, not_true_eq_false, not_false_eq_true, if_true, if_false, ↓reduceIte]

/-! ## The handler's acknowledgments -/

/-- Whenever `handler` returns, it returns a nil error and a response with
status 200, the one header `Content-Type: text/html` and one of the eight
acknowledgment strings as body. -/
theorem handler_returns_acknowledgment (w : World) (request : APIGatewayProxyRequest)
    (response : APIGatewayProxyResponse) (err : Option Error)
    (h : (handler w request).2 = .ok (response, err)) :
    err = none ∧ response.StatusCode = 200 ∧ response.Headers = [("Content-Type", "text/html")]
      ∧ response.Body ∈ acknowledgments := by
  unfold handler at h
  simp only [acknowledgment, acknowledgments] at h ⊢
  repeat' split at h
  all_goals
    first
    | (cases h; done)
    | (simp only [Except.ok.injEq, Prod.mk.injEq] at h
       obtain ⟨rfl, rfl⟩ := h
       simp)

/-- Claim C1, at an input where it fails: the request is signed and its session
names customer `cus_1`, and the connection to the Stripe API fails.  The
handler does not return the 200 acknowledgment "couldn't retrieve customer":
it panics in `customer_retrieval`, where the deferred `response.Body.Close`
reads through the nil response. -/
theorem C1_handler_panics_when_offline :
    handler Sample.world_offline Sample.request
      = ([Call.customer_retrieval "cus_1",
          Call.Do { Method := "GET", URL := "https://api.stripe.com/v1/customers/cus_1",
                    BasicAuth := some (stripe_private_test, "") }],
         .error (.panic "invalid memory address or nil pointer dereference")) := by
  rfl

/-- A verified `checkout.session.completed` event whose payload has no `data`
member: `checkout_session_retrieval` panics when it reads `event.Data.Raw`,
and `handler` with it, before any call is made. -/
theorem checkout_session_retrieval_nil_data :
    checkout_session_retrieval Sample.world_no_data Sample.request
      = .error (.panic "invalid memory address or nil pointer dereference")
    ∧ handler Sample.world_no_data Sample.request
      = ([], .error (.panic "invalid memory address or nil pointer dereference")) :=
  ⟨by rfl, by rfl⟩

/-- Claim C2: a request with no `Stripe-Signature` header makes
`checkout_session_retrieval` return an error (and the zero session), and makes
`handler` return the 200 acknowledgment "couldn't retrieve checkout session"
with an empty trace: no call of `customer_retrieval`,
`payment_intent_retrieval` or `unsendable`. -/
theorem C2_missing_signature (w : World) (request : APIGatewayProxyRequest)
    (h : request.Headers.lookup "Stripe-Signature" = none) :
    checkout_session_retrieval w request
      = .ok (CheckoutSession.zero, some "missing stripe header")
    ∧ handler w request
        = ([], .ok ({ StatusCode := 200, Headers := [("Content-Type", "text/html")],
                      IsBase64Encoded := false,
                      Body := "couldn't retrieve checkout session" }, none)) := by
  have h1 : checkout_session_retrieval w request
      = .ok (CheckoutSession.zero, some "missing stripe header") := by
    simp [checkout_session_retrieval, StringMap.index, h]
  refine ⟨h1, ?_⟩
  simp [handler, h1, acknowledgment]

theorem C2_missing_signature_witness :
    checkout_session_retrieval Sample.world Sample.request_unsigned
      = .ok (CheckoutSession.zero, some "missing stripe header")
    ∧ handler Sample.world Sample.request_unsigned
        = ([], .ok ({ StatusCode := 200, Headers := [("Content-Type", "text/html")],
                      IsBase64Encoded := false,
                      Body := "couldn't retrieve checkout session" }, none)) :=
  C2_missing_signature Sample.world Sample.request_unsigned (by decide)

/-- Claim C3: when the signature verifies but the event type is not
"checkout.session.completed", `checkout_session_retrieval` returns an error and
`handler` returns "couldn't retrieve checkout session" with an empty trace: no
call of `customer_retrieval`, `payment_intent_retrieval` or `unsendable`. -/
theorem C3_unexpected_event_type (w : World) (request : APIGatewayProxyRequest)
    (signature : String) (event : Event)
    (hsig : request.Headers.lookup "Stripe-Signature" = some signature)
    (hverified : w.ConstructEvent (utf8 request.Body) signature secret = (event, none))
    (htype : event.Type_ ≠ "checkout.session.completed") :
    checkout_session_retrieval w request
      = .ok (CheckoutSession.zero, some "unexpected event type")
    ∧ handler w request
        = ([], .ok ({ StatusCode := 200, Headers := [("Content-Type", "text/html")],
                      IsBase64Encoded := false,
                      Body := "couldn't retrieve checkout session" }, none)) := by
  have h1 : checkout_session_retrieval w request
      = .ok (CheckoutSession.zero, some "unexpected event type") := by
    simp [checkout_session_retrieval, StringMap.index, hsig, hverified, htype]
  refine ⟨h1, ?_⟩
  simp [handler, h1, acknowledgment]

theorem C3_unexpected_event_type_witness :
    checkout_session_retrieval Sample.world_other_event Sample.request
      = .ok (CheckoutSession.zero, some "unexpected event type")
    ∧ handler Sample.world_other_event Sample.request
        = ([], .ok ({ StatusCode := 200, Headers := [("Content-Type", "text/html")],
                      IsBase64Encoded := false,
                      Body := "couldn't retrieve checkout session" }, none)) :=
  C3_unexpected_event_type Sample.world_other_event Sample.request "t=1,v1=00"
    { Type_ := "charge.succeeded", Data := some { Raw := [] } } (by decide) (by rfl) (by decide)

/-- Claim C4: when `checkout_session_retrieval` succeeds with a session whose
`Customer` is nil, `handler` returns the acknowledgment "unspecified customer"
with an empty trace: no customer fetch, no payment intent fetch, no mail. -/
theorem C4_unspecified_customer (w : World) (request : APIGatewayProxyRequest)
    (checkout_session : CheckoutSession)
    (hverified : checkout_session_retrieval w request = .ok (checkout_session, none))
    (hnil : checkout_session.Customer = none) :
    handler w request
      = ([], .ok ({ StatusCode := 200, Headers := [("Content-Type", "text/html")],
                    IsBase64Encoded := false, Body := "unspecified customer" }, none)) := by
  simp [handler, hverified, hnil, acknowledgment]

theorem C4_unspecified_customer_witness :
    handler Sample.world_no_customer Sample.request
      = ([], .ok ({ StatusCode := 200, Headers := [("Content-Type", "text/html")],
                    IsBase64Encoded := false, Body := "unspecified customer" }, none)) :=
  C4_unspecified_customer Sample.world_no_customer Sample.request
    { Sample.session with Customer := none } (by rfl) (by rfl)

/-- The calls that `customer_retrieval` makes are HTTP requests and JSON decodings. -/
theorem customer_retrieval_calls (w : World) (id : String) (c : Call)
    (h : c ∈ (customer_retrieval w id).1) :
    (∃ request, c = Call.Do request) ∨ (∃ data, c = Call.UnmarshalJSON data) := by
  unfold customer_retrieval at h
  simp only at h
  repeat' split at h
  all_goals simp at h
  all_goals first
    | exact Or.inl ⟨_, h⟩
    | (rcases h with h | h
       · exact Or.inl ⟨_, h⟩
       · exact Or.inr ⟨_, h⟩)

/-- Claim C5 as stated fails: the session is verified, has a customer reference
and no payment intent reference, and the Stripe API answers the customer lookup
with status 404; the handler answers "couldn't retrieve customer", not
"unspecified payment intent". -/
theorem C5_counterexample :
    checkout_session_retrieval Sample.world_no_intent_404 Sample.request
      = .ok ({ Sample.session with PaymentIntent := none }, none)
    ∧ ({ Sample.session with PaymentIntent := none } : CheckoutSession).Customer
        = some { Customer.zero with ID := "cus_1" }
    ∧ ({ Sample.session with PaymentIntent := none } : CheckoutSession).PaymentIntent = none
    ∧ (handler Sample.world_no_intent_404 Sample.request).2
        = .ok (acknowledgment "couldn't retrieve customer")
    ∧ (handler Sample.world_no_intent_404 Sample.request).2
        ≠ .ok (acknowledgment "unspecified payment intent") := by
  refine ⟨by rfl, by rfl, by rfl, by rfl, ?_⟩
  have h : (handler Sample.world_no_intent_404 Sample.request).2
      = .ok (acknowledgment "couldn't retrieve customer") := by rfl
  rw [h]
  simp [acknowledgment]

/-- Claim C5, amended: for a verified session with a customer reference and a
nil payment intent reference, `handler` never calls `payment_intent_retrieval`
nor `unsendable`; when the customer lookup returns a customer and a nil error
it answers "unspecified payment intent", and when the customer lookup returns
an error it answers "couldn't retrieve customer". -/
theorem C5_unspecified_payment_intent (w : World) (request : APIGatewayProxyRequest)
    (checkout_session : CheckoutSession) (customer_ref : Customer)
    (hverified : checkout_session_retrieval w request = .ok (checkout_session, none))
    (hcustomer : checkout_session.Customer = some customer_ref)
    (hintent : checkout_session.PaymentIntent = none) :
    (∀ id, Call.payment_intent_retrieval id ∉ (handler w request).1)
    ∧ (∀ header message, Call.unsendable header message ∉ (handler w request).1)
    ∧ (∀ customer, (customer_retrieval w customer_ref.ID).2 = .ok (customer, none) →
        (handler w request).2
          = .ok ({ StatusCode := 200, Headers := [("Content-Type", "text/html")],
                   IsBase64Encoded := false, Body := "unspecified payment intent" }, none))
    ∧ (∀ customer err, (customer_retrieval w customer_ref.ID).2 = .ok (customer, some err) →
        (handler w request).2
          = .ok ({ StatusCode := 200, Headers := [("Content-Type", "text/html")],
                   IsBase64Encoded := false, Body := "couldn't retrieve customer" }, none)) := by
  have htrace : (handler w request).1
      = Call.customer_retrieval customer_ref.ID :: (customer_retrieval w customer_ref.ID).1 := by
    simp only [handler, hverified, hcustomer, hintent]
    rcases hr : customer_retrieval w customer_ref.ID with ⟨calls, r⟩
    rcases r with fault | ⟨customer, err⟩
    · simp
    · cases err <;> simp
  refine ⟨?_, ?_, ?_, ?_⟩
  · intro id hmem
    rw [htrace] at hmem
    rcases List.mem_cons.mp hmem with h | h
    · cases h
    · rcases customer_retrieval_calls w _ _ h with ⟨_, h⟩ | ⟨_, h⟩ <;> cases h
  · intro header message hmem
    rw [htrace] at hmem
    rcases List.mem_cons.mp hmem with h | h
    · cases h
    · rcases customer_retrieval_calls w _ _ h with ⟨_, h⟩ | ⟨_, h⟩ <;> cases h
  · intro customer hr
    rcases hr2 : customer_retrieval w customer_ref.ID with ⟨calls, r⟩
    rw [hr2] at hr
    simp only at hr
    subst hr
    simp [handler, hverified, hcustomer, hintent, hr2, acknowledgment]
  · intro customer err hr
    rcases hr2 : customer_retrieval w customer_ref.ID with ⟨calls, r⟩
    rw [hr2] at hr
    simp only at hr
    subst hr
    simp [handler, hverified, hcustomer, hintent, hr2, acknowledgment]

theorem C5_unspecified_payment_intent_witness :
    (handler Sample.world_no_intent Sample.request).2
      = .ok ({ StatusCode := 200, Headers := [("Content-Type", "text/html")],
               IsBase64Encoded := false, Body := "unspecified payment intent" }, none) :=
  (C5_unspecified_payment_intent Sample.world_no_intent Sample.request
    { Sample.session with PaymentIntent := none } { Customer.zero with ID := "cus_1" }
    (by rfl) (by rfl) (by rfl)).2.2.1 Sample.customer (by rfl)

/-- When `Do` returns no response, `customer_retrieval` panics for every id
whose URL parses, whatever error `Do` reports. -/
theorem customer_retrieval_nil_response (w : World) (id : String) (err : Option Error)
    (hurl : w.NewRequest "GET" ("https://api.stripe.com/v1/customers/" ++ id) = none)
    (hdo : w.Do { Method := "GET", URL := "https://api.stripe.com/v1/customers/" ++ id,
                  BasicAuth := some (stripe_private_test, "") } = (none, err)) :
    (customer_retrieval w id).2
      = .error (.panic "invalid memory address or nil pointer dereference") := by
  simp [customer_retrieval, hurl, hdo, deref]

/-- When `Do` returns no response, `payment_intent_retrieval` panics for every
id whose URL parses, whatever error `Do` reports. -/
theorem payment_intent_retrieval_nil_response (w : World) (id : String) (err : Option Error)
    (hurl : w.NewRequest "GET" ("https://api.stripe.com/v1/payment_intents/" ++ id) = none)
    (hdo : w.Do { Method := "GET", URL := "https://api.stripe.com/v1/payment_intents/" ++ id,
                  BasicAuth := some (stripe_private_test, "") } = (none, err)) :
    (payment_intent_retrieval w id).2
      = .error (.panic "invalid memory address or nil pointer dereference") := by
  simp [payment_intent_retrieval, hurl, hdo, deref]

/-- A response with a status other than 200 makes `customer_retrieval` return
the zero customer and an error; the body is not decoded. -/
theorem customer_retrieval_bad_status (w : World) (id : String) (response : Response)
    (hurl : w.NewRequest "GET" ("https://api.stripe.com/v1/customers/" ++ id) = none)
    (hdo : w.Do { Method := "GET", URL := "https://api.stripe.com/v1/customers/" ++ id,
                  BasicAuth := some (stripe_private_test, "") } = (some response, none))
    (hstatus : response.StatusCode ≠ 200) :
    customer_retrieval w id
      = ([Call.Do { Method := "GET", URL := "https://api.stripe.com/v1/customers/" ++ id,
                    BasicAuth := some (stripe_private_test, "") }],
         .ok (Customer.zero, some "unknown customer")) := by
  simp [customer_retrieval, hurl, hdo, hstatus]

/-- A response with a status other than 200 makes `payment_intent_retrieval`
return the zero payment intent and an error; the body is not decoded. -/
theorem payment_intent_retrieval_bad_status (w : World) (id : String) (response : Response)
    (hurl : w.NewRequest "GET" ("https://api.stripe.com/v1/payment_intents/" ++ id) = none)
    (hdo : w.Do { Method := "GET", URL := "https://api.stripe.com/v1/payment_intents/" ++ id,
                  BasicAuth := some (stripe_private_test, "") } = (some response, none))
    (hstatus : response.StatusCode ≠ 200) :
    payment_intent_retrieval w id
      = ([Call.Do { Method := "GET", URL := "https://api.stripe.com/v1/payment_intents/" ++ id,
                    BasicAuth := some (stripe_private_test, "") }],
         .ok (PaymentIntent.zero, some "couldn't retrieve payment intent")) := by
  simp [payment_intent_retrieval, hurl, hdo, hstatus]

/-- Claim C6, at an input where it fails: with the connection to the Stripe API
down (`Do` returns a nil response and an error), `customer_retrieval "cus_1"`
and `payment_intent_retrieval "pi_1"` do not return the error: each panics at
its `defer response.Body.Close ()`, after one `Do`. -/
theorem C6_retrievals_panic_when_offline :
    customer_retrieval Sample.world_offline "cus_1"
      = ([Call.Do { Method := "GET", URL := "https://api.stripe.com/v1/customers/cus_1",
                    BasicAuth := some (stripe_private_test, "") }],
         .error (.panic "invalid memory address or nil pointer dereference"))
    ∧ payment_intent_retrieval Sample.world_offline "pi_1"
      = ([Call.Do { Method := "GET", URL := "https://api.stripe.com/v1/payment_intents/pi_1",
                    BasicAuth := some (stripe_private_test, "") }],
         .error (.panic "invalid memory address or nil pointer dereference")) :=
  ⟨by rfl, by rfl⟩

/-! ## The text part -/

/-- Claim C7: in the text part that `email_body` writes (for a customer with
shipping details), the order line follows the contact lines and is
"order of 1 item at £X.XX to " when `Metadata["quantity"]` is exactly "1", and
"order of q items at £X.XX to " with `q` verbatim for every other value `q`,
the empty string of an absent key included; `X.XX` is the displayed amount, and
a blank line follows. -/
theorem C7_order_line (w : World) (cs : CheckoutSession) (customer : Customer)
    (shipping : CustomerShippingDetails) (payment_intent : PaymentIntent) (message : Bytes)
    (hshipping : customer.Shipping = some shipping) :
    (payment_intent.Metadata.lookup "quantity" = some "1" →
      email_body w cs customer payment_intent message
        = .ok (({ boundary := w.randomBoundary, lastpart := true },
            message ++ (part_header w.randomBoundary ++ (text_contact cs customer shipping
              ++ ((utf8 "order of 1 item at £" ++ (amount_text payment_intent ++ utf8 " to "))
              ++ (utf8 "\n\n" ++ (text_name shipping payment_intent
              ++ (text_address shipping ++ text_closing payment_intent))))))), none))
    ∧ (∀ q : String, (payment_intent.Metadata.lookup "quantity").getD "" = q → q ≠ "1" →
      email_body w cs customer payment_intent message
        = .ok (({ boundary := w.randomBoundary, lastpart := true },
            message ++ (part_header w.randomBoundary ++ (text_contact cs customer shipping
              ++ ((utf8 "order of " ++ (utf8 q ++ (utf8 " items at £"
                    ++ (amount_text payment_intent ++ utf8 " to "))))
              ++ (utf8 "\n\n" ++ (text_name shipping payment_intent
              ++ (text_address shipping ++ text_closing payment_intent))))))), none)) := by
  have hsplit : utf8 " to \n\n" = utf8 " to " ++ utf8 "\n\n" := by decide
  constructor
  · intro hq
    have hget : payment_intent.Metadata.get "quantity" = "1" := by
      simp [StringMap.get, hq]
    rw [email_body_eq w cs customer shipping payment_intent message hshipping]
    simp only [text_order, hget, if_true, hsplit, List.append_assoc]
  · intro q hq hne
    have hget : payment_intent.Metadata.get "quantity" = q := hq
    rw [email_body_eq w cs customer shipping payment_intent message hshipping]
    simp only [text_order, hget, hne, if_false, hsplit, List.append_assoc]

theorem C7_order_line_witness :
    email_body Sample.world Sample.session Sample.customer Sample.payment_intent []
      = .ok (({ boundary := Sample.world.randomBoundary, lastpart := true },
          [] ++ (part_header Sample.world.randomBoundary
            ++ (text_contact Sample.session Sample.customer Sample.shipping
            ++ ((utf8 "order of 1 item at £"
                  ++ (amount_text Sample.payment_intent ++ utf8 " to "))
            ++ (utf8 "\n\n" ++ (text_name Sample.shipping Sample.payment_intent
            ++ (text_address Sample.shipping ++ text_closing Sample.payment_intent))))))), none)
    ∧ email_body Sample.world Sample.session Sample.customer Sample.payment_intent_three []
      = .ok (({ boundary := Sample.world.randomBoundary, lastpart := true },
          [] ++ (part_header Sample.world.randomBoundary
            ++ (text_contact Sample.session Sample.customer Sample.shipping
            ++ ((utf8 "order of " ++ (utf8 "3" ++ (utf8 " items at £"
                  ++ (amount_text Sample.payment_intent_three ++ utf8 " to "))))
            ++ (utf8 "\n\n" ++ (text_name Sample.shipping Sample.payment_intent_three
            ++ (text_address Sample.shipping
            ++ text_closing Sample.payment_intent_three))))))), none) :=
  ⟨(C7_order_line Sample.world Sample.session Sample.customer Sample.shipping
      Sample.payment_intent [] (by rfl)).1 (by decide),
   (C7_order_line Sample.world Sample.session Sample.customer Sample.shipping
      Sample.payment_intent_three [] (by rfl)).2 "3" (by decide) (by decide)⟩

/-- Claim C8: in the text part that `email_body` writes, the address block
follows the name lines; with an empty `Shipping.Address.Line2` it is the five
fields Line1, City, State, PostalCode, Country, each ended by a newline, then
one blank line; with a non-empty `Line2` it is the six fields Line1, Line2,
City, State, PostalCode, Country, each ended by a newline, then one blank
line.  The closing line follows. -/
theorem C8_address_block (w : World) (cs : CheckoutSession) (customer : Customer)
    (shipping : CustomerShippingDetails) (payment_intent : PaymentIntent) (message : Bytes)
    (hshipping : customer.Shipping = some shipping) :
    (shipping.Address.Line2 = "" →
      email_body w cs customer payment_intent message
        = .ok (({ boundary := w.randomBoundary, lastpart := true },
            message ++ (part_header w.randomBoundary ++ (text_contact cs customer shipping
              ++ (text_order payment_intent ++ (text_name shipping payment_intent
              ++ ((utf8 shipping.Address.Line1 ++ utf8 "\n"
                    ++ (utf8 shipping.Address.City ++ utf8 "\n")
                    ++ (utf8 shipping.Address.State ++ utf8 "\n")
                    ++ (utf8 shipping.Address.PostalCode ++ utf8 "\n")
                    ++ (utf8 shipping.Address.Country ++ utf8 "\n")
                    ++ utf8 "\n")
              ++ text_closing payment_intent)))))), none))
    ∧ (shipping.Address.Line2 ≠ "" →
      email_body w cs customer payment_intent message
        = .ok (({ boundary := w.randomBoundary, lastpart := true },
            message ++ (part_header w.randomBoundary ++ (text_contact cs customer shipping
              ++ (text_order payment_intent ++ (text_name shipping payment_intent
              ++ ((utf8 shipping.Address.Line1 ++ utf8 "\n"
                    ++ (utf8 shipping.Address.Line2 ++ utf8 "\n")
                    ++ (utf8 shipping.Address.City ++ utf8 "\n")
                    ++ (utf8 shipping.Address.State ++ utf8 "\n")
                    ++ (utf8 shipping.Address.PostalCode ++ utf8 "\n")
                    ++ (utf8 shipping.Address.Country ++ utf8 "\n")
                    ++ utf8 "\n")
              ++ text_closing payment_intent)))))), none)) := by
  constructor
  · intro h2
    rw [email_body_eq w cs customer shipping payment_intent message hshipping]
    simp only [text_address, h2, if_true, List.append_assoc]
  · intro h2
    rw [email_body_eq w cs customer shipping payment_intent message hshipping]
    simp only [text_address, h2, if_false, List.append_assoc]

theorem C8_address_block_witness :
    email_body Sample.world Sample.session Sample.customer Sample.payment_intent []
      = .ok (({ boundary := Sample.world.randomBoundary, lastpart := true },
          [] ++ (part_header Sample.world.randomBoundary
            ++ (text_contact Sample.session Sample.customer Sample.shipping
            ++ (text_order Sample.payment_intent
            ++ (text_name Sample.shipping Sample.payment_intent
            ++ ((utf8 Sample.shipping.Address.Line1 ++ utf8 "\n"
                  ++ (utf8 Sample.shipping.Address.City ++ utf8 "\n")
                  ++ (utf8 Sample.shipping.Address.State ++ utf8 "\n")
                  ++ (utf8 Sample.shipping.Address.PostalCode ++ utf8 "\n")
                  ++ (utf8 Sample.shipping.Address.Country ++ utf8 "\n")
                  ++ utf8 "\n")
            ++ text_closing Sample.payment_intent)))))), none)
    ∧ email_body Sample.world Sample.session Sample.customer_two_lines Sample.payment_intent []
      = .ok (({ boundary := Sample.world.randomBoundary, lastpart := true },
          [] ++ (part_header Sample.world.randomBoundary
            ++ (text_contact Sample.session Sample.customer_two_lines Sample.shipping_two_lines
            ++ (text_order Sample.payment_intent
            ++ (text_name Sample.shipping_two_lines Sample.payment_intent
            ++ ((utf8 Sample.shipping_two_lines.Address.Line1 ++ utf8 "\n"
                  ++ (utf8 Sample.shipping_two_lines.Address.Line2 ++ utf8 "\n")
                  ++ (utf8 Sample.shipping_two_lines.Address.City ++ utf8 "\n")
                  ++ (utf8 Sample.shipping_two_lines.Address.State ++ utf8 "\n")
                  ++ (utf8 Sample.shipping_two_lines.Address.PostalCode ++ utf8 "\n")
                  ++ (utf8 Sample.shipping_two_lines.Address.Country ++ utf8 "\n")
                  ++ utf8 "\n")
            ++ text_closing Sample.payment_intent)))))), none) :=
  ⟨(C8_address_block Sample.world Sample.session Sample.customer Sample.shipping
      Sample.payment_intent [] (by rfl)).1 (by decide),
   (C8_address_block Sample.world Sample.session Sample.customer_two_lines
      Sample.shipping_two_lines Sample.payment_intent [] (by rfl)).2 (by decide)⟩

/-! ## Hex digits: the scanner of package fmt against the encoding -/

theorem hexDigit_lt (c : Char) (n : Nat) (h : hexDigit c = some n) : n < 16 ∧ c.toNat < 128 := by
  unfold hexDigit at h
  simp only at h
  split_ifs at h <;> simp only [Option.some.injEq, reduceCtorEq] at h <;> omega

theorem isHexDigitOf_toNat_lt (c : Char) (n : Nat) (h : isHexDigitOf c n = true) :
    c.toNat < 128 := by
  have hall : ∀ d ∈ "0123456789abcdef".data ++ "0123456789ABCDEF".data, d.toNat < 128 := by
    decide
  apply hall
  unfold isHexDigitOf at h
  simp only [Bool.or_eq_true, decide_eq_true_eq] at h
  rcases h with h | h
  · exact List.mem_append_left _ (List.get?_mem h)
  · exact List.mem_append_right _ (List.get?_mem h)

theorem hexDigit_table :
    ∀ k < 128, ∀ n < 16,
      decide (hexDigit (Char.ofNat k) = some n) = isHexDigitOf (Char.ofNat k) n := by
  decide

theorem isHexChar_table :
    ∀ k < 128, isHexChar (Char.ofNat k) = (hexDigit (Char.ofNat k)).isSome := by
  decide


theorem hexDigit_of_isHexDigitOf (c : Char) (n : Nat) (hn : n < 16)
    (h : isHexDigitOf c n = true) : hexDigit c = some n := by
  have hc := isHexDigitOf_toNat_lt c n h
  have ht := hexDigit_table c.toNat hc n hn
  rw [Char.ofNat_toNat, h] at ht
  exact of_decide_eq_true ht

theorem isHexDigitOf_of_hexDigit (c : Char) (n : Nat) (h : hexDigit c = some n) :
    isHexDigitOf c n = true := by
  obtain ⟨hn, hc⟩ := hexDigit_lt c n h
  have ht := hexDigit_table c.toNat hc n hn
  rw [Char.ofNat_toNat] at ht
  rw [← ht]
  exact decide_eq_true h

theorem isHexChar_eq (c : Char) : isHexChar c = (hexDigit c).isSome := by
  by_cases hc : c.toNat < 128
  · have ht := isHexChar_table c.toNat hc
    rwa [Char.ofNat_toNat] at ht
  · have h1 : hexDigit c = none := by
      unfold hexDigit
      simp only
      split_ifs <;> first | rfl | omega
    have hall : ∀ d ∈ "0123456789abcdefABCDEF".data, d.toNat < 128 := by decide
    have h2 : isHexChar c = false := by
      unfold isHexChar
      rw [Bool.eq_false_iff]
      intro hmem
      exact hc (hall c (List.elem_iff.mp hmem))
    rw [h1, h2]
    rfl

theorem isSpace_of_hexDigit (c : Char) (n : Nat) (h : hexDigit c = some n) :
    isSpace c = false := by
  unfold hexDigit at h
  unfold isSpace
  simp only at h ⊢
  split_ifs at h <;> simp only [Option.some.injEq, reduceCtorEq] at h <;>
    simp only [Bool.or_eq_false_iff, Bool.and_eq_false_iff, decide_eq_false_iff_not] <;> omega

theorem SkipSpace_of_not_space (c : Char) (rest : List Char) (h : isSpace c = false) :
    SkipSpace (c :: rest) = .ok (c :: rest) := by
  have h1 : c ≠ '\r' := by
    rintro rfl
    exact absurd h (by decide)
  have h2 : c ≠ '\n' := by
    rintro rfl
    exact absurd h (by decide)
  simp [SkipSpace, h1, h2, h]

theorem UInt8_ofNat_halves (b : UInt8) :
    UInt8.ofNat (b.toNat / 16 * 16 + b.toNat % 16) = b := by
  rw [Nat.div_add_mod']
  apply UInt8.ext
  rw [UInt8.toNat_ofNat_of_lt b.toNat_lt]

theorem UInt8_toNat_halves (x y : Nat) (hx : x < 16) (hy : y < 16) :
    (UInt8.ofNat (x * 16 + y)).toNat / 16 = x ∧ (UInt8.ofNat (x * 16 + y)).toNat % 16 = y := by
  have hlt : x * 16 + y < UInt8.size := by
    show x * 16 + y < 256
    omega
  rw [UInt8.toNat_ofNat_of_lt hlt]
  omega

/-- The scanner decodes every hex encoding to the bytes encoded. -/
theorem hexBytes_of_hexEncodes (cs : List Char) (u : Bytes) (h : hexEncodes cs u = true) :
    hexBytes cs = .ok u := by
  induction cs, u using hexEncodes.induct with
  | case1 => rfl
  | case2 hi lo cs b bs ih =>
    simp only [hexEncodes, Bool.and_eq_true] at h
    obtain ⟨⟨h1, h2⟩, h3⟩ := h
    have hb := b.toNat_lt
    have e1 := hexDigit_of_isHexDigitOf hi _ (by omega) h1
    have e2 := hexDigit_of_isHexDigitOf lo _ (Nat.mod_lt _ (by decide)) h2
    simp only [hexBytes, e1, e2, ih h3, Except.map, UInt8_ofNat_halves]
  | case3 cs u h1 h2 =>
    unfold hexEncodes at h
    split at h
    · exact absurd rfl (h1 · rfl)
    · exact absurd rfl (h2 _ _ _ _ _ · rfl)
    · exact absurd h (by simp)


/-- Induction over a list two elements at a time. -/
theorem list_two_step {α : Type} (P : List α → Prop) (h0 : P []) (h1 : ∀ a, P [a])
    (h2 : ∀ a b l, P l → P (a :: b :: l)) : ∀ l, P l := by
  have key : ∀ l, P l ∧ ∀ a, P (a :: l) := by
    intro l
    induction l with
    | nil => exact ⟨h0, h1⟩
    | cons b l ih => exact ⟨ih.2 b, fun a => h2 a b l ih.1⟩
  exact fun l => (key l).1

/-- What the scanner's loop does with the leading run of hex digits: an odd
run is an error, an even run is decoded and the rest is left unread. -/
theorem hexBytes_run (l : List Char) :
    ((l.takeWhile isHexChar).length % 2 = 1 → ∃ e, hexBytes l = .error e)
    ∧ ((l.takeWhile isHexChar).length % 2 = 0 →
        ∃ u, hexBytes l = .ok u ∧ hexEncodes (l.takeWhile isHexChar) u = true) := by
  induction l using list_two_step with
  | h0 => exact ⟨by simp, fun _ => ⟨[], rfl, rfl⟩⟩
  | h1 rune1 =>
    cases h : hexDigit rune1 with
    | none =>
      have hc : isHexChar rune1 = false := by rw [isHexChar_eq, h]; rfl
      simp [hexBytes, h, hc, List.takeWhile, hexEncodes]
    | some v =>
      have hc : isHexChar rune1 = true := by rw [isHexChar_eq, h]; rfl
      simp [hexBytes, h, hc, List.takeWhile]
  | h2 rune1 rune2 rest ih =>
    cases h1 : hexDigit rune1 with
    | none =>
      have hc : isHexChar rune1 = false := by rw [isHexChar_eq, h1]; rfl
      simp [hexBytes, h1, hc, List.takeWhile, hexEncodes]
    | some v1 =>
      have hc1 : isHexChar rune1 = true := by rw [isHexChar_eq, h1]; rfl
      cases h2 : hexDigit rune2 with
      | none =>
        have hc2 : isHexChar rune2 = false := by rw [isHexChar_eq, h2]; rfl
        simp [hexBytes, h1, h2, hc1, hc2, List.takeWhile]
      | some v2 =>
        have hc2 : isHexChar rune2 = true := by rw [isHexChar_eq, h2]; rfl
        have htw : List.takeWhile isHexChar (rune1 :: rune2 :: rest)
            = rune1 :: rune2 :: List.takeWhile isHexChar rest := by
          simp [List.takeWhile, hc1, hc2]
        have hlen : (List.takeWhile isHexChar (rune1 :: rune2 :: rest)).length
            = (List.takeWhile isHexChar rest).length + 2 := by
          rw [htw]
          rfl
        obtain ⟨ihodd, iheven⟩ := ih
        constructor
        · intro hodd
          obtain ⟨e, he⟩ := ihodd (by omega)
          exact ⟨e, by simp [hexBytes, h1, h2, he, Except.map]⟩
        · intro heven
          obtain ⟨u, hu, henc⟩ := iheven (by omega)
          refine ⟨UInt8.ofNat (v1 * 16 + v2) :: u, by simp [hexBytes, h1, h2, hu, Except.map], ?_⟩
          obtain ⟨hv1, -⟩ := hexDigit_lt _ _ h1
          obtain ⟨hv2, -⟩ := hexDigit_lt _ _ h2
          obtain ⟨e1, e2⟩ := UInt8_toNat_halves v1 v2 hv1 hv2
          rw [htw]
          simp only [hexEncodes, e1, e2, isHexDigitOf_of_hexDigit _ _ h1,
            isHexDigitOf_of_hexDigit _ _ h2, henc, Bool.and_self]

/-- The scan of an input that starts with a rune that is not white space. -/
theorem Sscanf_x_of_not_space (s : String) (c : Char) (rest : List Char) (v : Bytes)
    (hs : s.data = c :: rest) (hc : isSpace c = false) :
    (Sscanf_x s v).1 = match hexBytes (c :: rest) with
      | .error _ => v
      | .ok buf => if buf.isEmpty then v else buf := by
  unfold Sscanf_x convertString_x hexString
  rw [hs]
  simp only [SkipSpace_of_not_space c rest hc, List.isEmpty_cons, Bool.false_eq_true, if_false]
  cases hexBytes (c :: rest) with
  | error e => rfl
  | ok buf => cases buf <;> rfl

theorem Sscanf_x_empty (s : String) (v : Bytes) (hs : s.data = []) : (Sscanf_x s v).1 = v := by
  unfold Sscanf_x
  rw [hs]
  rfl

theorem hexEncodes_nil_right (cs : List Char) (h : hexEncodes cs [] = true) : cs = [] := by
  cases cs with
  | nil => rfl
  | cons c cs => cases cs <;> simp [hexEncodes] at h

/-- The payment URL as a function of the leading run of hex digits of the link. -/
theorem payment_url_of_cases (payment_intent : PaymentIntent) :
    (payment_intent.Metadata.get "payment_link" = "" → payment_url_of payment_intent = [])
    ∧ ((hexRun (payment_intent.Metadata.get "payment_link")).length % 2 = 1 →
        payment_url_of payment_intent = [])
    ∧ (∀ c rest, (payment_intent.Metadata.get "payment_link").data = c :: rest →
        isHexChar c = false → isSpace c = false → payment_url_of payment_intent = [])
    ∧ (hexRun (payment_intent.Metadata.get "payment_link") ≠ [] →
        (hexRun (payment_intent.Metadata.get "payment_link")).length % 2 = 0 →
        payment_url_of payment_intent ≠ []
        ∧ hexEncodes (hexRun (payment_intent.Metadata.get "payment_link"))
            (payment_url_of payment_intent) = true) := by
  unfold payment_url_of hexRun
  generalize payment_intent.Metadata.get "payment_link" = link
  refine ⟨?_, ?_, ?_, ?_⟩
  · rintro rfl
    rfl
  · intro hodd
    rcases hd : link.data with _ | ⟨c, rest⟩
    · rw [hd] at hodd
      simp at hodd
    · rw [hd] at hodd
      have hc : isHexChar c = true := by
        by_contra hcon
        simp [List.takeWhile, hcon] at hodd
      have hsp : isSpace c = false := by
        rw [isHexChar_eq] at hc
        obtain ⟨n, hn⟩ := Option.isSome_iff_exists.mp hc
        exact isSpace_of_hexDigit c n hn
      rw [Sscanf_x_of_not_space link c rest [] hd hsp]
      obtain ⟨e, he⟩ := (hexBytes_run (c :: rest)).1 hodd
      rw [he]
  · intro c rest hd hc hsp
    rw [Sscanf_x_of_not_space link c rest [] hd hsp]
    have hnone : hexDigit c = none := by
      rw [isHexChar_eq] at hc
      cases h : hexDigit c with
      | none => rfl
      | some n => rw [h] at hc; cases hc
    cases rest <;> simp [hexBytes, hnone]
  · intro hne heven
    rcases hd : link.data with _ | ⟨c, rest⟩
    · rw [hd] at hne
      simp at hne
    · rw [hd] at hne heven
      have hc : isHexChar c = true := by
        by_contra hcon
        simp [List.takeWhile, hcon] at hne
      have hsp : isSpace c = false := by
        rw [isHexChar_eq] at hc
        obtain ⟨n, hn⟩ := Option.isSome_iff_exists.mp hc
        exact isSpace_of_hexDigit c n hn
      rw [Sscanf_x_of_not_space link c rest [] hd hsp]
      obtain ⟨u, hu, henc⟩ := (hexBytes_run (c :: rest)).2 heven
      rw [hu]
      have hu_ne : u ≠ [] := by
        rintro rfl
        exact hne (hexEncodes_nil_right _ henc)
      cases u with
      | nil => exact absurd rfl hu_ne
      | cons b bs => exact ⟨by simp, by simpa using henc⟩


/-- The text before the payment URL does not read the payment link. -/
theorem text_before_url_congr (cs : CheckoutSession) (customer : Customer)
    (shipping : CustomerShippingDetails) (payment_intent other : PaymentIntent)
    (hamount : other.Amount = payment_intent.Amount)
    (hmeta : ∀ k, k ≠ "payment_link" → other.Metadata.lookup k = payment_intent.Metadata.lookup k) :
    text_before_url cs customer shipping other
      = text_before_url cs customer shipping payment_intent := by
  have hq : other.Metadata.get "quantity" = payment_intent.Metadata.get "quantity" := by
    unfold StringMap.get
    rw [hmeta "quantity" (by decide)]
  have hc : other.Metadata.get "company" = payment_intent.Metadata.get "company" := by
    unfold StringMap.get
    rw [hmeta "company" (by decide)]
  have hn : other.Metadata.get "courier_name" = payment_intent.Metadata.get "courier_name" := by
    unfold StringMap.get
    rw [hmeta "courier_name" (by decide)]
  simp only [text_before_url, text_order, text_name, amount_text, hq, hc, hn, hamount]

theorem email_body_before_url (w : World) (cs : CheckoutSession) (customer : Customer)
    (shipping : CustomerShippingDetails) (payment_intent : PaymentIntent) (message : Bytes)
    (h : customer.Shipping = some shipping) :
    email_body w cs customer payment_intent message
      = .ok (({ boundary := w.randomBoundary, lastpart := true },
          message ++ (part_header w.randomBoundary
            ++ (text_before_url cs customer shipping payment_intent
            ++ (payment_url_of payment_intent ++ utf8 "\n")))), none) := by
  rw [email_body_eq w cs customer shipping payment_intent message h]
  simp only [text_before_url, text_closing, List.append_assoc]

set_option maxRecDepth 8000 in
/-- Claim C9 as stated fails: the payment link "6874zz" is not a valid hex
encoding (it holds characters that are not hex digits), yet the URL on the
closing line is not empty: it is "ht", the decoding of the two pairs before the
first such character. -/
theorem C9_counterexample :
    validHex (Sample.payment_intent_trailing.Metadata.get "payment_link") = false
    ∧ payment_url_of Sample.payment_intent_trailing = utf8 "ht"
    ∧ email_body Sample.world Sample.session Sample.customer Sample.payment_intent_trailing []
        = .ok (({ boundary := "0123456789abcdef", lastpart := true },
            utf8 ("--0123456789abcdef\r\n"
              ++ "Content-Transfer-Encoding: quoted-printable\r\n"
              ++ "Content-Type: text/plain; charset=utf-8\r\n\r\n"
              ++ "checkout session ID: cs_1\n\n"
              ++ "email: jane@example.org\n\n"
              ++ "phone: 0113 496 0000\n\n"
              ++ "order of 1 item at £19.99 to \n\n"
              ++ "Jane Doe\n"
              ++ "1 High St\nLeeds\nWest Yorkshire\nLS1 1AA\nGB\n\n"
              ++ "to ship by ACME payable at\n\nht\n")), none) :=
  ⟨by decide, by decide, by rfl⟩

/-- Claim C9, amended: for every session, customer with shipping details and
payment record, `email_body` returns a nil error, and the text it writes is a
stretch that does not depend on the payment link (it is the same for any other
payment record with the same amount and the same other metadata), then the
URL, then a newline.  The URL is empty when the link is absent or empty, when
its leading run of hex digits has odd length, and when it starts with a
character that is neither a hex digit nor white space.  When the leading run
of hex digits is not empty and of even length the URL is not empty: it is the
decoding of that run, whatever follows the run. -/
theorem C9_payment_link_not_fatal (w : World) (cs : CheckoutSession) (customer : Customer)
    (shipping : CustomerShippingDetails) (payment_intent other : PaymentIntent) (message : Bytes)
    (hshipping : customer.Shipping = some shipping)
    (hamount : other.Amount = payment_intent.Amount)
    (hmeta : ∀ k, k ≠ "payment_link" → other.Metadata.lookup k = payment_intent.Metadata.lookup k) :
    (email_body w cs customer payment_intent message
        = .ok (({ boundary := w.randomBoundary, lastpart := true },
            message ++ (part_header w.randomBoundary
              ++ (text_before_url cs customer shipping payment_intent
              ++ (payment_url_of payment_intent ++ utf8 "\n")))), none)
      ∧ email_body w cs customer other message
        = .ok (({ boundary := w.randomBoundary, lastpart := true },
            message ++ (part_header w.randomBoundary
              ++ (text_before_url cs customer shipping payment_intent
              ++ (payment_url_of other ++ utf8 "\n")))), none))
    ∧ ((payment_intent.Metadata.lookup "payment_link").getD "" = "" →
        payment_url_of payment_intent = [])
    ∧ ((hexRun ((payment_intent.Metadata.lookup "payment_link").getD "")).length % 2 = 1 →
        payment_url_of payment_intent = [])
    ∧ (∀ c rest, ((payment_intent.Metadata.lookup "payment_link").getD "").data = c :: rest →
        isHexChar c = false → isSpace c = false → payment_url_of payment_intent = [])
    ∧ (hexRun ((payment_intent.Metadata.lookup "payment_link").getD "") ≠ [] →
        (hexRun ((payment_intent.Metadata.lookup "payment_link").getD "")).length % 2 = 0 →
        payment_url_of payment_intent ≠ []
        ∧ hexEncodes (hexRun ((payment_intent.Metadata.lookup "payment_link").getD ""))
            (payment_url_of payment_intent) = true) := by
  refine ⟨⟨email_body_before_url w cs customer shipping payment_intent message hshipping, ?_⟩,
    payment_url_of_cases payment_intent⟩
  rw [email_body_before_url w cs customer shipping other message hshipping,
    text_before_url_congr cs customer shipping payment_intent other hamount hmeta]

theorem C9_payment_link_not_fatal_witness :
    email_body Sample.world Sample.session Sample.customer Sample.payment_intent_odd []
        = .ok (({ boundary := Sample.world.randomBoundary, lastpart := true },
            [] ++ (part_header Sample.world.randomBoundary
              ++ (text_before_url Sample.session Sample.customer Sample.shipping
                    Sample.payment_intent_odd
              ++ (payment_url_of Sample.payment_intent_odd ++ utf8 "\n")))), none)
    ∧ email_body Sample.world Sample.session Sample.customer Sample.payment_intent []
        = .ok (({ boundary := Sample.world.randomBoundary, lastpart := true },
            [] ++ (part_header Sample.world.randomBoundary
              ++ (text_before_url Sample.session Sample.customer Sample.shipping
                    Sample.payment_intent_odd
              ++ (payment_url_of Sample.payment_intent ++ utf8 "\n")))), none)
    ∧ payment_url_of Sample.payment_intent_odd = [] :=
  have h := C9_payment_link_not_fatal Sample.world Sample.session Sample.customer
    Sample.shipping Sample.payment_intent_odd Sample.payment_intent [] (by rfl) (by rfl)
    (by
      intro k hk
      simp only [Sample.payment_intent, Sample.payment_intent_odd, List.lookup]
      split
      · rfl
      · split
        · rfl
        · split
          · rename_i hk2
            exact absurd (by simpa using hk2) hk
          · rfl)
  ⟨h.1.1, h.1.2, h.2.2.1 (by decide)⟩

/-- Claim C10: when `Metadata["payment_link"]` is a hex encoding (two hex digits
per byte, in either letter case) of the bytes of a non-empty URL `u`, the
closing line that `email_body` writes is
"to ship by <courier_name> payable at\n\n<u>\n": the decoded URL is `u`. -/
theorem C10_hex_round_trip (w : World) (cs : CheckoutSession) (customer : Customer)
    (shipping : CustomerShippingDetails) (payment_intent : PaymentIntent) (message : Bytes)
    (link : String) (u : Bytes)
    (hshipping : customer.Shipping = some shipping)
    (hlink : payment_intent.Metadata.lookup "payment_link" = some link)
    (hu : u ≠ [])
    (henc : hexEncodes link.data u = true) :
    email_body w cs customer payment_intent message
      = .ok (({ boundary := w.randomBoundary, lastpart := true },
          message ++ (part_header w.randomBoundary ++ (text_contact cs customer shipping
            ++ (text_order payment_intent ++ (text_name shipping payment_intent
            ++ (text_address shipping
            ++ (utf8 "to ship by "
                ++ (utf8 ((payment_intent.Metadata.lookup "courier_name").getD "")
                ++ (utf8 " payable at\n\n" ++ (u ++ utf8 "\n")))))))))), none) := by
  have hget : payment_intent.Metadata.get "payment_link" = link := by
    simp [StringMap.get, hlink]
  have hurl : payment_url_of payment_intent = u := by
    unfold payment_url_of
    rw [hget]
    rcases hd : link.data with _ | ⟨c, rest⟩
    · rw [hd] at henc
      cases u with
      | nil => exact absurd rfl hu
      | cons b bs => simp [hexEncodes] at henc
    · have hc : isSpace c = false := by
        rw [hd] at henc
        cases rest with
        | nil => cases u <;> simp [hexEncodes] at henc
        | cons c2 rest2 =>
          cases u with
          | nil => exact absurd rfl hu
          | cons b bs =>
            simp only [hexEncodes, Bool.and_eq_true] at henc
            have hb := b.toNat_lt
            exact isSpace_of_hexDigit c _
              (hexDigit_of_isHexDigitOf c _ (by omega) henc.1.1)
      rw [Sscanf_x_of_not_space link c rest [] hd hc, ← hd,
        hexBytes_of_hexEncodes link.data u henc]
      cases u with
      | nil => exact absurd rfl hu
      | cons b bs => rfl
  rw [email_body_eq w cs customer shipping payment_intent message hshipping]
  simp only [text_closing, hurl, StringMap.get]

theorem C10_hex_round_trip_witness :
    email_body Sample.world Sample.session Sample.customer Sample.payment_intent []
      = .ok (({ boundary := Sample.world.randomBoundary, lastpart := true },
          [] ++ (part_header Sample.world.randomBoundary
            ++ (text_contact Sample.session Sample.customer Sample.shipping
            ++ (text_order Sample.payment_intent
            ++ (text_name Sample.shipping Sample.payment_intent
            ++ (text_address Sample.shipping
            ++ (utf8 "to ship by "
                ++ (utf8 ((Sample.payment_intent.Metadata.lookup "courier_name").getD "")
                ++ (utf8 " payable at\n\n"
                ++ (utf8 "https://pay.example/1" ++ utf8 "\n")))))))))), none) :=
  C10_hex_round_trip Sample.world Sample.session Sample.customer Sample.shipping
    Sample.payment_intent [] "68747470733a2f2f7061792e6578616d706c652f31"
    (utf8 "https://pay.example/1") (by rfl) (by decide) (by decide) (by decide)

/-! ## The displayed amount -/

theorem log2Fuel_spec (fuel : Nat) : ∀ n, n ≤ fuel → 0 < n →
    2 ^ log2Fuel fuel n ≤ n ∧ n < 2 ^ (log2Fuel fuel n + 1) := by
  induction fuel with
  | zero => intro n h1 h2; omega
  | succ fuel ih =>
    intro n h1 h2
    unfold log2Fuel
    split_ifs with h
    · obtain ⟨ih1, ih2⟩ := ih (n / 2) (by omega) (by omega)
      rw [pow_succ, pow_succ]
      rw [pow_succ] at ih2
      constructor <;> omega
    · have : n = 1 := by omega
      subst this
      simp

theorem ilog2_spec (n : Nat) (h : 0 < n) : 2 ^ ilog2 n ≤ n ∧ n < 2 ^ (ilog2 n + 1) :=
  log2Fuel_spec n n (le_refl n) h

theorem ilog2_unique (n l : Nat) (h1 : 2 ^ l ≤ n) (h2 : n < 2 ^ (l + 1)) : ilog2 n = l := by
  have hn : 0 < n := lt_of_lt_of_le (Nat.two_pow_pos l) h1
  obtain ⟨s1, s2⟩ := ilog2_spec n hn
  have a1 : ilog2 n < l + 1 :=
    (Nat.pow_lt_pow_iff_right (by decide : 1 < 2)).mp (lt_of_le_of_lt s1 h2)
  have a2 : l < ilog2 n + 1 :=
    (Nat.pow_lt_pow_iff_right (by decide : 1 < 2)).mp (lt_of_le_of_lt h1 s2)
  omega

/-- Rounding is within half a unit of the quotient. -/
theorem roundHalfEven_near (n d : Nat) (hd : 0 < d) :
    2 * (roundHalfEven n d * d) ≤ 2 * n + d ∧ 2 * n ≤ 2 * (roundHalfEven n d * d) + d := by
  have h1 := Nat.div_add_mod n d
  have h2 := Nat.mod_lt n hd
  unfold roundHalfEven
  simp only
  rw [Nat.mul_comm] at h1
  split_ifs with h
  · rw [Nat.add_mul, Nat.one_mul]
    constructor <;> omega
  · constructor <;> omega

/-- A quotient within less than half a unit of an integer rounds to that integer. -/
theorem roundHalfEven_eq (n d q : Nat) (h1 : 2 * n < 2 * (q * d) + d)
    (h2 : 2 * (q * d) < 2 * n + d) : roundHalfEven n d = q := by
  have hd : 0 < d := by
    rcases Nat.eq_zero_or_pos d with h | h
    · subst h
      omega
    · exact h
  have e1 := Nat.div_add_mod n d
  have e2 := Nat.mod_lt n hd
  rw [Nat.mul_comm] at e1
  unfold roundHalfEven
  simp only
  rcases Nat.lt_or_ge n (q * d) with hlt | hge
  · -- the quotient is `q - 1` and the remainder is more than half
    obtain ⟨p, rfl⟩ : ∃ p, q = p + 1 := ⟨q - 1, by
      rcases q with _ | q
      · simp at hlt
      · rfl⟩
    rw [Nat.add_mul, Nat.one_mul] at hlt h1 h2
    have hq : n / d = p := by
      apply Nat.div_eq_of_lt_le
      · omega
      · rw [Nat.add_mul, Nat.one_mul]
        exact hlt
    rw [hq] at e1 ⊢
    rw [if_pos (Or.inl (by omega))]
  · have hq : n / d = q := by
      apply Nat.div_eq_of_lt_le hge
      rw [Nat.add_mul, Nat.one_mul]
      omega
    rw [hq] at e1 ⊢
    rw [if_neg]
    omega

theorem roundHalfEven_mul_right (n d p : Nat) (hp : 0 < p) :
    roundHalfEven (n * p) (d * p) = roundHalfEven n d := by
  unfold roundHalfEven
  simp only [Nat.mul_div_mul_right _ _ hp, Nat.mul_mod_mul_right]
  have e : ∀ x y : Nat, (x * p < y * p ↔ x < y) := fun x y => Nat.mul_lt_mul_right hp
  have e2 : ∀ x y : Nat, (x * p = y * p ↔ x = y) := fun x y => Nat.mul_left_inj (by omega)
  have a1 : 2 * (n % d * p) = (2 * (n % d)) * p := by ring
  simp only [a1, e, e2]

theorem roundHalfEven_one (n : Nat) : roundHalfEven n 1 = n := by
  unfold roundHalfEven
  simp [Nat.mod_one]

theorem scaleFrac_natCast (n d k : Nat) : scaleFrac n d (k : Int) = (n * 2 ^ k, d) := by
  unfold scaleFrac
  rw [if_pos (Int.ofNat_nonneg k), Int.toNat_ofNat]

theorem scaleFrac_one_neg (n k : Nat) : scaleFrac n 1 (-(k : Int)) = (n, 2 ^ k) := by
  unfold scaleFrac
  rcases Nat.eq_zero_or_pos k with h | h
  · subst h
    simp
  · rw [if_neg (by omega), Int.neg_neg, Int.toNat_ofNat, Nat.one_mul]

/-- An integer below `2^53` converts to float64 exactly. -/
theorem Float64_ofInt_exact (a : Nat) (h0 : 0 < a) (h53 : a < 2 ^ 53) :
    ilog2 a ≤ 52 ∧ Float64.ofInt (a : Int)
      = { neg := false, mant := a * 2 ^ (52 - ilog2 a), exp := -((52 - ilog2 a : Nat) : Int) } := by
  obtain ⟨l1, l2⟩ := ilog2_spec a h0
  have hL : ilog2 a < 53 :=
    (Nat.pow_lt_pow_iff_right (by decide : 1 < 2)).mp (lt_of_le_of_lt l1 h53)
  refine ⟨by omega, ?_⟩
  have hone : ilog2 1 = 0 := by decide
  have hs0 : (53 : Int) + ((ilog2 1 : Nat) : Int) - ((ilog2 a : Nat) : Int)
      = ((53 - ilog2 a : Nat) : Int) := by
    rw [hone]
    omega
  have hs1 : ((53 - ilog2 a : Nat) : Int) - 1 = ((52 - ilog2 a : Nat) : Int) := by omega
  have hbig : ¬ a * 2 ^ (53 - ilog2 a) < 2 ^ 53 := by
    have : 2 ^ ilog2 a * 2 ^ (53 - ilog2 a) = 2 ^ 53 := by
      rw [← pow_add]
      congr 1
      omega
    have : 2 ^ ilog2 a * 2 ^ (53 - ilog2 a) ≤ a * 2 ^ (53 - ilog2 a) :=
      Nat.mul_le_mul_right _ l1
    omega
  unfold Float64.ofInt roundToFloat64
  simp only [Int.natAbs_ofNat, if_neg (Nat.pos_iff_ne_zero.mp h0), hs0, scaleFrac_natCast,
    Nat.div_one, if_neg hbig, hs1, roundHalfEven_one]
  simp

/-- For an amount up to `100 * 2^46`, the hundredths of `float64(a) / 100.0` are `a`. -/
theorem hundredths_div_hundred (a : Nat) (ha : a ≤ 100 * 2 ^ 46) :
    ((Float64.ofInt (a : Int)).div Float64.hundred).hundredths = a
    ∧ ((Float64.ofInt (a : Int)).div Float64.hundred).neg = false := by
  rcases Nat.eq_zero_or_pos a with h0 | h0
  · subst h0
    decide
  rcases Nat.eq_or_lt_of_le ha with hmax | hlt
  · subst hmax
    decide
  have h53 : a < 2 ^ 53 := by
    have : (100 : Nat) * 2 ^ 46 < 2 ^ 53 := by decide
    omega
  obtain ⟨hL, hexact⟩ := Float64_ofInt_exact a h0 h53
  obtain ⟨l1, l2⟩ := ilog2_spec a h0
  -- the significand `a * 2^k` has its leading bit at position 52
  set k := 52 - ilog2 a with hk
  have hpow : 2 ^ ilog2 a * 2 ^ k = 2 ^ 52 := by
    rw [← pow_add]
    congr 1
    omega
  have hlo : 2 ^ 52 ≤ a * 2 ^ k := by
    rw [← hpow]
    exact Nat.mul_le_mul_right _ l1
  have hhi : a * 2 ^ k < 2 ^ 53 := by
    have : 2 ^ (ilog2 a + 1) * 2 ^ k = 2 ^ 53 := by
      rw [← pow_add]
      congr 1
      omega
    rw [← this]
    exact Nat.mul_lt_mul_of_pos_right l2 (Nat.two_pow_pos k)
  have hnum : ilog2 (a * 2 ^ k) = 52 := ilog2_unique _ 52 hlo hhi
  have hden : ilog2 (2 ^ k * 100) = k + 6 := by
    have e6 : 2 ^ (k + 6) = 2 ^ k * 64 := by rw [pow_add]; norm_num
    have e7 : 2 ^ (k + 6 + 1) = 2 ^ k * 128 := by rw [pow_add, pow_add]; norm_num; ring
    have hp := Nat.two_pow_pos k
    apply ilog2_unique
    · rw [e6]
      omega
    · rw [e7]
      omega
  have hnum0 : a * 2 ^ k ≠ 0 := by omega
  have hs0 : (53 : Int) + ((k + 6 : Nat) : Int) - ((52 : Nat) : Int) = ((k + 7 : Nat) : Int) := by
    omega
  have hs1 : ((k + 7 : Nat) : Int) - 1 = ((k + 6 : Nat) : Int) := by omega
  -- the scale `s` chosen by the division is at least 7
  have hround : ∃ s : Nat, 7 ≤ s ∧ roundToFloat64 (a * 2 ^ k) (2 ^ k * 100)
      = (roundHalfEven (a * 2 ^ s) 100, -(s : Int)) := by
    have hcancel : ∀ s : Nat, roundHalfEven (a * 2 ^ k * 2 ^ s) (2 ^ k * 100)
        = roundHalfEven (a * 2 ^ s) 100 := by
      intro s
      rw [show a * 2 ^ k * 2 ^ s = a * 2 ^ s * 2 ^ k by ring,
        show 2 ^ k * 100 = 100 * 2 ^ k by ring]
      exact roundHalfEven_mul_right _ _ _ (Nat.two_pow_pos k)
    unfold roundToFloat64
    simp only [if_neg hnum0, hnum, hden, hs0, scaleFrac_natCast]
    split_ifs with htest
    · exact ⟨k + 7, by omega, by rw [scaleFrac_natCast, hcancel]⟩
    · refine ⟨k + 6, ?_, by rw [hs1, scaleFrac_natCast, hcancel]⟩
      by_contra hk0
      have hk0 : k = 0 := by omega
      apply htest
      rw [hk0]
      simp only [pow_zero, Nat.mul_one, Nat.one_mul, Nat.zero_add]
      apply (Nat.div_lt_iff_lt_mul (by decide)).mpr
      omega
  obtain ⟨s, hs7, hr⟩ := hround
  have hq : 128 ≤ 2 ^ s := by
    have : 2 ^ 7 ≤ 2 ^ s := Nat.pow_le_pow_right (by decide) hs7
    simpa using this
  have hdiv : (Float64.ofInt (a : Int)).div Float64.hundred
      = { neg := false, mant := roundHalfEven (a * 2 ^ s) 100, exp := -(s : Int) } := by
    rw [hexact]
    unfold Float64.div
    simp only [scaleFrac_one_neg, Float64.hundred]
    have hpy : scaleFrac 100 1 0 = (100, 1) := by decide
    simp only [hpy, Nat.mul_one, hr]
    rfl
  rw [hdiv]
  refine ⟨?_, rfl⟩
  unfold Float64.hundredths
  simp only [scaleFrac_one_neg]
  obtain ⟨n1, n2⟩ := roundHalfEven_near (a * 2 ^ s) 100 (by decide)
  apply roundHalfEven_eq <;> omega

/-- For an amount from 0 to `100 * 2^46` the displayed amount is the numeral of
the specification. -/
theorem amount_text_two_places (payment_intent : PaymentIntent)
    (h0 : 0 ≤ payment_intent.Amount) (hmax : payment_intent.Amount ≤ 7036874417766400) :
    amount_text payment_intent = utf8 (two_places payment_intent.Amount.toNat) := by
  obtain ⟨a, ha⟩ := Int.eq_ofNat_of_zero_le h0
  have hle : a ≤ 100 * 2 ^ 46 := by
    have : (100 : Nat) * 2 ^ 46 = 7036874417766400 := by decide
    omega
  obtain ⟨h1, h2⟩ := hundredths_div_hundred a hle
  unfold amount_text fmtFloat2 two_places
  rw [ha]
  simp only [h1, h2, Int.toNat_ofNat]
  rfl

set_option maxRecDepth 8000 in
/-- Claim C11 as stated fails: for the amount 7036874417766401 (one more than
`100 * 2^46`) the order line shows "70368744177664.02", while the numeral of the
amount divided by 100 is "70368744177664.01": the quotient is rounded to the
nearest float64 before it is printed. -/
theorem C11_counterexample :
    two_places 7036874417766401 = "70368744177664.01"
    ∧ amount_text Sample.payment_intent_huge = utf8 "70368744177664.02"
    ∧ email_body Sample.world Sample.session Sample.customer Sample.payment_intent_huge []
        = .ok (({ boundary := "0123456789abcdef", lastpart := true },
            utf8 ("--0123456789abcdef\r\n"
              ++ "Content-Transfer-Encoding: quoted-printable\r\n"
              ++ "Content-Type: text/plain; charset=utf-8\r\n\r\n"
              ++ "checkout session ID: cs_1\n\n"
              ++ "email: jane@example.org\n\n"
              ++ "phone: 0113 496 0000\n\n"
              ++ "order of 1 item at £70368744177664.02 to \n\n"
              ++ "Jane Doe\n"
              ++ "1 High St\nLeeds\nWest Yorkshire\nLS1 1AA\nGB\n\n"
              ++ "to ship by ACME payable at\n\nhttps://pay.example/1\n")), none) :=
  ⟨by decide, by decide, by rfl⟩

/-- Claim C11, amended: for every amount `a` from 0 to `100 * 2^46`
(7036874417766400 minor units), the string written after "£" in the order line
is the decimal numeral of `a div 100`, a dot, and `a mod 100` as exactly two
digits.  The order line is shown in the buffer that `email_body` returns for a
customer with shipping details. -/
theorem C11_amount_two_places (w : World) (cs : CheckoutSession) (customer : Customer)
    (shipping : CustomerShippingDetails) (payment_intent : PaymentIntent) (message : Bytes)
    (hshipping : customer.Shipping = some shipping)
    (h0 : 0 ≤ payment_intent.Amount) (hmax : payment_intent.Amount ≤ 7036874417766400) :
    email_body w cs customer payment_intent message
      = .ok (({ boundary := w.randomBoundary, lastpart := true },
          message ++ (part_header w.randomBoundary ++ (text_contact cs customer shipping
            ++ ((if (payment_intent.Metadata.lookup "quantity").getD "" = "1" then
                  utf8 "order of 1 item at £"
                else utf8 "order of "
                  ++ (utf8 ((payment_intent.Metadata.lookup "quantity").getD "")
                  ++ utf8 " items at £"))
            ++ (utf8 (two_places payment_intent.Amount.toNat)
            ++ (utf8 " to \n\n" ++ (text_name shipping payment_intent
            ++ (text_address shipping ++ text_closing payment_intent)))))))), none) := by
  rw [email_body_eq w cs customer shipping payment_intent message hshipping]
  simp only [text_order, amount_text_two_places payment_intent h0 hmax, StringMap.get]
  split_ifs <;> simp only [List.append_assoc]

theorem C11_amount_two_places_witness :
    (two_places 1999 = "19.99" ∧ two_places 5 = "0.05" ∧ two_places 100 = "1.00")
    ∧ email_body Sample.world Sample.session Sample.customer Sample.payment_intent []
      = .ok (({ boundary := Sample.world.randomBoundary, lastpart := true },
          [] ++ (part_header Sample.world.randomBoundary
            ++ (text_contact Sample.session Sample.customer Sample.shipping
            ++ (utf8 "order of 1 item at £"
            ++ (utf8 "19.99"
            ++ (utf8 " to \n\n" ++ (text_name Sample.shipping Sample.payment_intent
            ++ (text_address Sample.shipping
            ++ text_closing Sample.payment_intent)))))))), none) :=
  ⟨by decide,
   C11_amount_two_places Sample.world Sample.session Sample.customer Sample.shipping
     Sample.payment_intent [] (by rfl) (by decide) (by decide)⟩

theorem utf8_append (a b : String) : utf8 (a ++ b) = utf8 a ++ utf8 b := by
  unfold utf8
  rw [String.data_append, List.flatMap_append]

/-- For a customer with shipping details, the text part that `email_body`
writes after the part header is exactly, in this order: the session line; the
customer reference line if and only if the reference is not empty; the email
line; the phone line; the order line and a blank line; the recipient name
line, then a company line if and only if `Metadata["company"]` is not empty;
the address block; the closing line with the courier and the payment URL. -/
theorem email_body_text_layout (w : World) (cs : CheckoutSession) (customer : Customer)
    (shipping : CustomerShippingDetails) (payment_intent : PaymentIntent) (message : Bytes)
    (hshipping : customer.Shipping = some shipping) :
    email_body w cs customer payment_intent message
      = .ok (({ boundary := w.randomBoundary, lastpart := true },
          message ++ part_header w.randomBoundary
            ++ utf8 "checkout session ID: " ++ utf8 cs.ID ++ utf8 "\n\n"
            ++ (if cs.ClientReferenceID ≠ "" then
                  utf8 "customer reference: " ++ utf8 cs.ClientReferenceID ++ utf8 "\n\n"
                else [])
            ++ utf8 "email: " ++ utf8 customer.Email ++ utf8 "\n\n"
            ++ utf8 "phone: " ++ utf8 shipping.Phone ++ utf8 "\n\n"
            ++ (if (payment_intent.Metadata.lookup "quantity").getD "" = "1" then
                  utf8 "order of 1 item at £" ++ amount_text payment_intent ++ utf8 " to "
                else
                  utf8 "order of " ++ utf8 ((payment_intent.Metadata.lookup "quantity").getD "")
                    ++ utf8 " items at £" ++ amount_text payment_intent ++ utf8 " to ")
            ++ utf8 "\n\n"
            ++ utf8 shipping.Name ++ utf8 "\n"
            ++ (if (payment_intent.Metadata.lookup "company").getD "" ≠ "" then
                  utf8 ((payment_intent.Metadata.lookup "company").getD "") ++ utf8 "\n"
                else [])
            ++ (if shipping.Address.Line2 = "" then
                  utf8 shipping.Address.Line1 ++ utf8 "\n"
                    ++ utf8 shipping.Address.City ++ utf8 "\n"
                    ++ utf8 shipping.Address.State ++ utf8 "\n"
                    ++ utf8 shipping.Address.PostalCode ++ utf8 "\n"
                    ++ utf8 shipping.Address.Country ++ utf8 "\n"
                    ++ utf8 "\n"
                else
                  utf8 shipping.Address.Line1 ++ utf8 "\n"
                    ++ utf8 shipping.Address.Line2 ++ utf8 "\n"
                    ++ utf8 shipping.Address.City ++ utf8 "\n"
                    ++ utf8 shipping.Address.State ++ utf8 "\n"
                    ++ utf8 shipping.Address.PostalCode ++ utf8 "\n"
                    ++ utf8 shipping.Address.Country ++ utf8 "\n"
                    ++ utf8 "\n")
            ++ utf8 "to ship by "
            ++ utf8 ((payment_intent.Metadata.lookup "courier_name").getD "")
            ++ utf8 " payable at\n\n" ++ payment_url_of payment_intent
            ++ utf8 "\n"), none) := by
  have hsplit : utf8 " to \n\n" = utf8 " to " ++ utf8 "\n\n" := by decide
  rw [email_body_eq w cs customer shipping payment_intent message hshipping]
  simp only [text_contact, text_order, text_name, text_address, text_closing, StringMap.get,
    hsplit]
  split_ifs <;> simp only [List.append_assoc, List.nil_append]

theorem email_body_text_layout_sample :
    email_body Sample.world Sample.session Sample.customer_two_lines
        Sample.payment_intent_three []
      = .ok (({ boundary := "0123456789abcdef", lastpart := true },
          [] ++ part_header "0123456789abcdef"
            ++ utf8 "checkout session ID: " ++ utf8 "cs_1" ++ utf8 "\n\n"
            ++ []
            ++ utf8 "email: " ++ utf8 "jane@example.org" ++ utf8 "\n\n"
            ++ utf8 "phone: " ++ utf8 "0113 496 0000" ++ utf8 "\n\n"
            ++ (utf8 "order of " ++ utf8 "3" ++ utf8 " items at £"
                  ++ amount_text Sample.payment_intent_three ++ utf8 " to ")
            ++ utf8 "\n\n"
            ++ utf8 "Jane Doe" ++ utf8 "\n"
            ++ (utf8 "Doe Ltd" ++ utf8 "\n")
            ++ (utf8 "1 High St" ++ utf8 "\n"
                  ++ utf8 "Flat 2" ++ utf8 "\n"
                  ++ utf8 "Leeds" ++ utf8 "\n"
                  ++ utf8 "West Yorkshire" ++ utf8 "\n"
                  ++ utf8 "LS1 1AA" ++ utf8 "\n"
                  ++ utf8 "GB" ++ utf8 "\n"
                  ++ utf8 "\n")
            ++ utf8 "to ship by " ++ utf8 "ACME" ++ utf8 " payable at\n\n"
            ++ payment_url_of Sample.payment_intent_three
            ++ utf8 "\n"), none) :=
  email_body_text_layout Sample.world Sample.session Sample.customer_two_lines
    Sample.shipping_two_lines Sample.payment_intent_three [] (by rfl)

/-- Claim C12, at an input where it fails: for a customer with no shipping
details (`Shipping` nil, as decoded from `"shipping": null`) `email_body`
writes no text part of the claimed content.  It stops with a panic when it
reads `customer.Shipping.Phone` for the phone line, so that no buffer is
returned to its caller. -/
theorem C12_no_text_part_without_shipping :
    email_body Sample.world Sample.session Sample.customer_no_shipping
        Sample.payment_intent_three []
      = .error (.panic "invalid memory address or nil pointer dereference")
    ∧ ∀ (writer : MultipartWriter) (text : Bytes) (err : Option Error),
        email_body Sample.world Sample.session Sample.customer_no_shipping
            Sample.payment_intent_three []
          ≠ .ok ((writer, part_header Sample.world.randomBoundary ++ text), err) := by
  have h : email_body Sample.world Sample.session Sample.customer_no_shipping
        Sample.payment_intent_three []
      = .error (.panic "invalid memory address or nil pointer dereference") := by rfl
  refine ⟨h, ?_⟩
  intro writer text err
  rw [h]
  simp

/-- Claim C13: composition is a fixed function of the records and the boundary.
Two calls on the same records with fresh buffers, in any two worlds, give the
same result when the boundaries agree; and with different boundaries they
either stop with the same fault or return buffers that differ only in the
boundary of the opening delimiter: the part header lines and the part body
are byte for byte the same. -/
theorem C13_deterministic (w1 w2 : World) (cs : CheckoutSession) (customer : Customer)
    (payment_intent : PaymentIntent) :
    (w1.randomBoundary = w2.randomBoundary →
      email_body w1 cs customer payment_intent [] = email_body w2 cs customer payment_intent [])
    ∧ ((∃ fault, email_body w1 cs customer payment_intent [] = .error fault
          ∧ email_body w2 cs customer payment_intent [] = .error fault)
       ∨ (∃ body : Bytes,
          email_body w1 cs customer payment_intent []
            = .ok (({ boundary := w1.randomBoundary, lastpart := true },
                utf8 ("--" ++ w1.randomBoundary ++ "\r\n")
                  ++ (utf8 "Content-Transfer-Encoding: quoted-printable\r\n"
                  ++ (utf8 "Content-Type: text/plain; charset=utf-8\r\n"
                  ++ (utf8 "\r\n" ++ body)))), none)
          ∧ email_body w2 cs customer payment_intent []
            = .ok (({ boundary := w2.randomBoundary, lastpart := true },
                utf8 ("--" ++ w2.randomBoundary ++ "\r\n")
                  ++ (utf8 "Content-Transfer-Encoding: quoted-printable\r\n"
                  ++ (utf8 "Content-Type: text/plain; charset=utf-8\r\n"
                  ++ (utf8 "\r\n" ++ body)))), none))) := by
  cases hs : customer.Shipping with
  | none =>
    rw [email_body_nil_shipping w1 cs customer payment_intent [] hs,
      email_body_nil_shipping w2 cs customer payment_intent [] hs]
    exact ⟨fun _ => rfl, Or.inl ⟨_, rfl, rfl⟩⟩
  | some shipping =>
    rw [email_body_eq w1 cs customer shipping payment_intent [] hs,
      email_body_eq w2 cs customer shipping payment_intent [] hs]
    refine ⟨fun h => by rw [h], Or.inr ⟨text_part cs customer shipping payment_intent, ?_, ?_⟩⟩
    · simp only [part_header, text_part, List.append_assoc, List.nil_append]
    · simp only [part_header, text_part, List.append_assoc, List.nil_append]

theorem C13_deterministic_witness :
    email_body Sample.world Sample.session Sample.customer Sample.payment_intent []
      = email_body Sample.world_mail_down Sample.session Sample.customer
          Sample.payment_intent [] :=
  (C13_deterministic Sample.world Sample.world_mail_down Sample.session Sample.customer
    Sample.payment_intent).1 (by rfl)

/-- Claim C14: for every boundary `b`, `header_of b` is the six lines
MIME-Version, Content-Disposition, Content-Type with the boundary in quotes,
From, To and Subject, in this order, each ended by a newline; Subject is the
last header line and the blank line follows it, so the result ends in two
newlines. -/
theorem C14_header_of (boundary : String) :
    header_of boundary
      = utf8 "MIME-Version: 1.0\n"
        ++ utf8 "Content-Disposition: inline\n"
        ++ utf8 ("Content-Type: multipart/mixed; boundary=\"" ++ boundary ++ "\"\n")
        ++ utf8 ("From: " ++ sender ++ "\n")
        ++ utf8 ("To: " ++ recipient ++ "\n")
        ++ utf8 ("Subject: " ++ subject ++ "\n")
        ++ utf8 "\n"
    ∧ (∃ lines, header_of boundary = lines ++ utf8 ("Subject: " ++ subject) ++ utf8 "\n\n") := by
  have h : header_of boundary
      = utf8 "MIME-Version: 1.0\n"
        ++ utf8 "Content-Disposition: inline\n"
        ++ utf8 ("Content-Type: multipart/mixed; boundary=\"" ++ boundary ++ "\"\n")
        ++ utf8 ("From: " ++ sender ++ "\n")
        ++ utf8 ("To: " ++ recipient ++ "\n")
        ++ utf8 ("Subject: " ++ subject ++ "\n")
        ++ utf8 "\n" := by
    unfold header_of
    have e1 : "Subject: " ++ subject ++ "\n\n" = "Subject: " ++ subject ++ "\n" ++ "\n" := by
      decide
    simp only [List.nil_append, e1, utf8_append, List.append_assoc, String.append_assoc]
  refine ⟨h, ?_⟩
  rw [h]
  refine ⟨utf8 "MIME-Version: 1.0\n"
        ++ utf8 "Content-Disposition: inline\n"
        ++ utf8 ("Content-Type: multipart/mixed; boundary=\"" ++ boundary ++ "\"\n")
        ++ utf8 ("From: " ++ sender ++ "\n")
        ++ utf8 ("To: " ++ recipient ++ "\n"), ?_⟩
  have e2 : utf8 "\n\n" = utf8 "\n" ++ utf8 "\n" := by decide
  simp only [utf8_append, e2, List.append_assoc]

/-- Claim C15: the raw message data that `unsendable` builds from a header `h`
and a message `m` is `h` followed directly by `m`, of length `len h + len m`;
it is the only data `unsendable` ever submits, and it is submitted when the
SES session is created.  With `h = header_of b`, the header's own blank line
is all that stands between the Subject line and the MIME body. -/
theorem C15_raw_message (w : World) (h m : Bytes) :
    bytes_Join [h, m] [] = h ++ m
    ∧ (bytes_Join [h, m] []).length = h.length + m.length
    ∧ (∀ data, Call.SendRawEmail data ∈ (unsendable w h m).1 → data = h ++ m)
    ∧ (w.NewSession region = none →
        unsendable w h m = ([Call.SendRawEmail (h ++ m)], w.SendRawEmail (h ++ m)))
    ∧ (∀ b, ∃ lines, bytes_Join [header_of b, m] []
        = lines ++ utf8 ("Subject: " ++ subject ++ "\n") ++ utf8 "\n" ++ m) := by
  have hj : bytes_Join [h, m] [] = h ++ m := by
    simp [bytes_Join, List.intercalate]
  refine ⟨hj, by rw [hj, List.length_append], ?_, ?_, ?_⟩
  · intro data hmem
    unfold unsendable at hmem
    simp only [hj] at hmem
    split_ifs at hmem
    · simpa using hmem
    · simp at hmem
  · intro hs
    unfold unsendable
    simp only [hj, hs, if_true]
  · intro b
    refine ⟨utf8 "MIME-Version: 1.0\n"
        ++ utf8 "Content-Disposition: inline\n"
        ++ utf8 ("Content-Type: multipart/mixed; boundary=\"" ++ b ++ "\"\n")
        ++ utf8 ("From: " ++ sender ++ "\n")
        ++ utf8 ("To: " ++ recipient ++ "\n"), ?_⟩
    have hj2 : bytes_Join [header_of b, m] [] = header_of b ++ m := by
      simp [bytes_Join, List.intercalate]
    rw [hj2]
    unfold header_of
    have e1 : "Subject: " ++ subject ++ "\n\n" = "Subject: " ++ subject ++ "\n" ++ "\n" := by
      decide
    simp only [List.nil_append, e1, utf8_append, List.append_assoc, String.append_assoc]

/-! ## The shape of every run of the handler -/

/-- The four ways `customer_retrieval` ends. -/
theorem customer_retrieval_shape (w : World) (id : String) :
    (∃ e, customer_retrieval w id = ([], .ok (Customer.zero, some e)))
    ∨ (customer_retrieval w id = ([Call.Do (customer_request id)],
        .error (.panic "invalid memory address or nil pointer dereference")))
    ∨ (∃ e, customer_retrieval w id
        = ([Call.Do (customer_request id)], .ok (Customer.zero, some e)))
    ∨ (∃ body, customer_retrieval w id
        = ([Call.Do (customer_request id), Call.UnmarshalJSON body],
            .ok (w.UnmarshalCustomer body))) := by
  cases h1 : w.NewRequest "GET" ("https://api.stripe.com/v1/customers/" ++ id) with
  | some e => exact Or.inl ⟨e, by simp [customer_retrieval, h1]⟩
  | none =>
    rcases hdo : w.Do { Method := "GET", URL := "https://api.stripe.com/v1/customers/" ++ id,
                        BasicAuth := some (stripe_private_test, "") } with ⟨response, err⟩
    cases response with
    | none =>
      exact Or.inr (Or.inl (by simp [customer_retrieval, customer_request, h1, hdo, deref]))
    | some response =>
      cases err with
      | some e =>
        exact Or.inr (Or.inr (Or.inl ⟨e, by simp [customer_retrieval, customer_request, h1, hdo]⟩))
      | none =>
        by_cases hs : response.StatusCode = 200
        · exact Or.inr (Or.inr (Or.inr ⟨response.Body,
            by simp [customer_retrieval, customer_request, h1, hdo, hs]⟩))
        · exact Or.inr (Or.inr (Or.inl ⟨"unknown customer",
            by simp [customer_retrieval, customer_request, h1, hdo, hs]⟩))

/-- The four ways `payment_intent_retrieval` ends. -/
theorem payment_intent_retrieval_shape (w : World) (id : String) :
    (∃ e, payment_intent_retrieval w id = ([], .ok (PaymentIntent.zero, some e)))
    ∨ (payment_intent_retrieval w id = ([Call.Do (payment_intent_request id)],
        .error (.panic "invalid memory address or nil pointer dereference")))
    ∨ (∃ e, payment_intent_retrieval w id
        = ([Call.Do (payment_intent_request id)], .ok (PaymentIntent.zero, some e)))
    ∨ (∃ body, payment_intent_retrieval w id
        = ([Call.Do (payment_intent_request id), Call.UnmarshalJSON body],
            .ok (w.UnmarshalPaymentIntent body))) := by
  cases h1 : w.NewRequest "GET" ("https://api.stripe.com/v1/payment_intents/" ++ id) with
  | some e => exact Or.inl ⟨e, by simp [payment_intent_retrieval, h1]⟩
  | none =>
    rcases hdo : w.Do { Method := "GET", URL := "https://api.stripe.com/v1/payment_intents/" ++ id,
                        BasicAuth := some (stripe_private_test, "") } with ⟨response, err⟩
    cases response with
    | none =>
      exact Or.inr (Or.inl (by simp [payment_intent_retrieval, payment_intent_request, h1, hdo, deref]))
    | some response =>
      cases err with
      | some e =>
        exact Or.inr (Or.inr (Or.inl ⟨e, by simp [payment_intent_retrieval, payment_intent_request, h1, hdo]⟩))
      | none =>
        by_cases hs : response.StatusCode = 200
        · exact Or.inr (Or.inr (Or.inr ⟨response.Body,
            by simp [payment_intent_retrieval, payment_intent_request, h1, hdo, hs]⟩))
        · exact Or.inr (Or.inr (Or.inl ⟨"couldn't retrieve payment intent",
            by simp [payment_intent_retrieval, payment_intent_request, h1, hdo, hs]⟩))

/-- A fetch that returns a nil error made one request and decoded its body. -/
theorem customer_retrieval_ok (w : World) (id : String) (customer : Customer)
    (h : (customer_retrieval w id).2 = .ok (customer, none)) :
    ∃ body, (customer_retrieval w id).1
      = [Call.Do (customer_request id), Call.UnmarshalJSON body] := by
  rcases customer_retrieval_shape w id with ⟨e, he⟩ | he | ⟨e, he⟩ | ⟨body, he⟩
  · rw [he] at h; simp at h
  · rw [he] at h; simp at h
  · rw [he] at h; simp at h
  · exact ⟨body, by rw [he]⟩

theorem payment_intent_retrieval_ok (w : World) (id : String) (payment_intent : PaymentIntent)
    (h : (payment_intent_retrieval w id).2 = .ok (payment_intent, none)) :
    ∃ body, (payment_intent_retrieval w id).1
      = [Call.Do (payment_intent_request id), Call.UnmarshalJSON body] := by
  rcases payment_intent_retrieval_shape w id with ⟨e, he⟩ | he | ⟨e, he⟩ | ⟨body, he⟩
  · rw [he] at h; simp at h
  · rw [he] at h; simp at h
  · rw [he] at h; simp at h
  · exact ⟨body, by rw [he]⟩

/-- The calls inside a fetch are HTTP requests and JSON decodings: no stage marker. -/
theorem customer_retrieval_no_stage (w : World) (id : String) (c : Call)
    (h : c ∈ (customer_retrieval w id).1) : c.isStage = false := by
  rcases customer_retrieval_shape w id with ⟨e, he⟩ | he | ⟨e, he⟩ | ⟨body, he⟩ <;>
    rw [he] at h <;> simp at h
  · subst h; rfl
  · subst h; rfl
  · rcases h with h | h <;> subst h <;> rfl

theorem payment_intent_retrieval_no_stage (w : World) (id : String) (c : Call)
    (h : c ∈ (payment_intent_retrieval w id).1) : c.isStage = false := by
  rcases payment_intent_retrieval_shape w id with ⟨e, he⟩ | he | ⟨e, he⟩ | ⟨body, he⟩ <;>
    rw [he] at h <;> simp at h
  · subst h; rfl
  · subst h; rfl
  · rcases h with h | h <;> subst h <;> rfl

/-- The remote calls of a fetch: none, or its one request. -/
theorem customer_retrieval_remote (w : World) (id : String) :
    ((customer_retrieval w id).1.filter Call.isRemote = []
      ∨ (customer_retrieval w id).1.filter Call.isRemote = [Call.Do (customer_request id)])
    ∧ (customer_retrieval w id).1.filter Call.isStage = [] := by
  rcases customer_retrieval_shape w id with ⟨e, he⟩ | he | ⟨e, he⟩ | ⟨body, he⟩ <;>
    rw [he] <;> simp [Call.isRemote, Call.isStage]

theorem payment_intent_retrieval_remote (w : World) (id : String) :
    ((payment_intent_retrieval w id).1.filter Call.isRemote = []
      ∨ (payment_intent_retrieval w id).1.filter Call.isRemote
          = [Call.Do (payment_intent_request id)])
    ∧ (payment_intent_retrieval w id).1.filter Call.isStage = [] := by
  rcases payment_intent_retrieval_shape w id with ⟨e, he⟩ | he | ⟨e, he⟩ | ⟨body, he⟩ <;>
    rw [he] <;> simp [Call.isRemote, Call.isStage]

/-- The calls of `unsendable`: none, or the one SES call. -/
theorem unsendable_calls (w : World) (h m : Bytes) :
    (unsendable w h m).1 = [] ∨ (unsendable w h m).1 = [Call.SendRawEmail (h ++ m)] := by
  unfold unsendable
  simp only [bytes_Join, List.intercalate]
  split_ifs
  · exact Or.inr (by simp)
  · exact Or.inl rfl

theorem unsendable_no_stage (w : World) (h m : Bytes) (c : Call)
    (hc : c ∈ (unsendable w h m).1) : c.isStage = false := by
  rcases unsendable_calls w h m with he | he <;> rw [he] at hc <;> simp at hc
  subst hc
  rfl

/-- Every run of `handler`, stage by stage: where it stops, what it has called
by then and what it returns. -/
theorem handler_cases (w : World) (request : APIGatewayProxyRequest) :
    (∃ fault, checkout_session_retrieval w request = .error fault
      ∧ handler w request = ([], .error fault))
    ∨ (∃ cs e, checkout_session_retrieval w request = .ok (cs, some e)
      ∧ handler w request = ([], .ok (acknowledgment "couldn't retrieve checkout session")))
    ∨ ∃ cs, checkout_session_retrieval w request = .ok (cs, none) ∧
      ((cs.Customer = none
          ∧ handler w request = ([], .ok (acknowledgment "unspecified customer")))
      ∨ ∃ cref, cs.Customer = some cref ∧
        ((∃ fault, (customer_retrieval w cref.ID).2 = .error fault
            ∧ handler w request
              = (Call.customer_retrieval cref.ID :: (customer_retrieval w cref.ID).1,
                  .error fault))
        ∨ (∃ c e, (customer_retrieval w cref.ID).2 = .ok (c, some e)
            ∧ handler w request
              = (Call.customer_retrieval cref.ID :: (customer_retrieval w cref.ID).1,
                  .ok (acknowledgment "couldn't retrieve customer")))
        ∨ ∃ c, (customer_retrieval w cref.ID).2 = .ok (c, none) ∧
          ((cs.PaymentIntent = none
              ∧ handler w request
                = (Call.customer_retrieval cref.ID :: (customer_retrieval w cref.ID).1,
                    .ok (acknowledgment "unspecified payment intent")))
          ∨ ∃ pref, cs.PaymentIntent = some pref ∧
            ((∃ fault, (payment_intent_retrieval w pref.ID).2 = .error fault
                ∧ handler w request
                  = (Call.customer_retrieval cref.ID :: (customer_retrieval w cref.ID).1
                      ++ Call.payment_intent_retrieval pref.ID
                        :: (payment_intent_retrieval w pref.ID).1,
                      .error fault))
            ∨ (∃ p e, (payment_intent_retrieval w pref.ID).2 = .ok (p, some e)
                ∧ handler w request
                  = (Call.customer_retrieval cref.ID :: (customer_retrieval w cref.ID).1
                      ++ Call.payment_intent_retrieval pref.ID
                        :: (payment_intent_retrieval w pref.ID).1,
                      .ok (acknowledgment "couldn't retrieve payment intent")))
            ∨ ∃ p, (payment_intent_retrieval w pref.ID).2 = .ok (p, none) ∧
              ((c.Shipping = none
                  ∧ handler w request
                    = (Call.customer_retrieval cref.ID :: (customer_retrieval w cref.ID).1
                        ++ Call.payment_intent_retrieval pref.ID
                          :: (payment_intent_retrieval w pref.ID).1,
                        .error (.panic "invalid memory address or nil pointer dereference")))
              ∨ ∃ shipping, c.Shipping = some shipping
                  ∧ handler w request
                    = (Call.customer_retrieval cref.ID :: (customer_retrieval w cref.ID).1
                        ++ Call.payment_intent_retrieval pref.ID
                          :: (payment_intent_retrieval w pref.ID).1
                        ++ Call.unsendable (header_of w.randomBoundary)
                            (part_header w.randomBoundary ++ text_part cs c shipping p
                              ++ utf8 ("\r\n--" ++ w.randomBoundary ++ "--\r\n"))
                          :: (unsendable w (header_of w.randomBoundary)
                              (part_header w.randomBoundary ++ text_part cs c shipping p
                                ++ utf8 ("\r\n--" ++ w.randomBoundary ++ "--\r\n"))).1,
                        .ok (acknowledgment
                          (if (unsendable w (header_of w.randomBoundary)
                              (part_header w.randomBoundary ++ text_part cs c shipping p
                                ++ utf8 ("\r\n--" ++ w.randomBoundary ++ "--\r\n"))).2 = none
                           then "ok" else "couldn't send email")))))))) := by
  rcases hcsr : checkout_session_retrieval w request with fault | ⟨cs, err⟩
  · exact Or.inl ⟨fault, rfl, by simp [handler, hcsr]⟩
  cases err with
  | some e => exact Or.inr (Or.inl ⟨cs, e, rfl, by simp [handler, hcsr]⟩)
  | none =>
  refine Or.inr (Or.inr ⟨cs, rfl, ?_⟩)
  cases hC : cs.Customer with
  | none => exact Or.inl ⟨rfl, by simp [handler, hcsr, hC]⟩
  | some cref =>
  refine Or.inr ⟨cref, rfl, ?_⟩
  rcases hcr : customer_retrieval w cref.ID with ⟨calls1, r1⟩
  rcases r1 with fault | ⟨c, err1⟩
  · exact Or.inl ⟨fault, rfl, by simp [handler, hcsr, hC, hcr]⟩
  cases err1 with
  | some e => exact Or.inr (Or.inl ⟨c, e, rfl, by simp [handler, hcsr, hC, hcr]⟩)
  | none =>
  refine Or.inr (Or.inr ⟨c, rfl, ?_⟩)
  cases hP : cs.PaymentIntent with
  | none => exact Or.inl ⟨rfl, by simp [handler, hcsr, hC, hcr, hP]⟩
  | some pref =>
  refine Or.inr ⟨pref, rfl, ?_⟩
  rcases hpr : payment_intent_retrieval w pref.ID with ⟨calls2, r2⟩
  rcases r2 with fault | ⟨p, err2⟩
  · exact Or.inl ⟨fault, rfl, by simp [handler, hcsr, hC, hcr, hP, hpr]⟩
  cases err2 with
  | some e => exact Or.inr (Or.inl ⟨p, e, rfl, by simp [handler, hcsr, hC, hcr, hP, hpr]⟩)
  | none =>
  refine Or.inr (Or.inr ⟨p, rfl, ?_⟩)
  cases hS : c.Shipping with
  | none =>
    exact Or.inl ⟨rfl, by
      simp [handler, hcsr, hC, hcr, hP, hpr, email_body_nil_shipping w cs c p [] hS]⟩
  | some shipping =>
    refine Or.inr ⟨shipping, rfl, ?_⟩
    simp only [handler, hcsr, hC, hcr, hP, hpr, email_body_eq w cs c shipping p [] hS,
      MultipartWriter.Close, MultipartWriter.Boundary, text_part, List.nil_append,
      ne_eq, not_true_eq_false, if_false, List.append_assoc, List.cons_append]
    split_ifs <;> rfl

/-! ## End to end -/

/-- With both fetches successful and a customer with shipping details, the
handler calls `unsendable` once, after the two fetches, and answers "ok" or
"couldn't send email" according to its error. -/
theorem handler_dispatch (w : World) (request : APIGatewayProxyRequest)
    (cs : CheckoutSession) (cref c : Customer) (pref p : PaymentIntent)
    (shipping : CustomerShippingDetails)
    (hcsr : checkout_session_retrieval w request = .ok (cs, none))
    (hC : cs.Customer = some cref) (hP : cs.PaymentIntent = some pref)
    (hcr : (customer_retrieval w cref.ID).2 = .ok (c, none))
    (hpr : (payment_intent_retrieval w pref.ID).2 = .ok (p, none))
    (hS : c.Shipping = some shipping) :
    (handler w request).1.filter Call.isStage
      = [Call.customer_retrieval cref.ID, Call.payment_intent_retrieval pref.ID,
         Call.unsendable (header_of w.randomBoundary)
           (part_header w.randomBoundary ++ text_part cs c shipping p
             ++ utf8 ("\r\n--" ++ w.randomBoundary ++ "--\r\n"))]
    ∧ (handler w request).2
      = .ok (acknowledgment
          (if (unsendable w (header_of w.randomBoundary)
              (part_header w.randomBoundary ++ text_part cs c shipping p
                ++ utf8 ("\r\n--" ++ w.randomBoundary ++ "--\r\n"))).2 = none
           then "ok" else "couldn't send email")) := by
  rcases handler_cases w request with ⟨f, h, -⟩ | ⟨cs0, e, h, -⟩ | ⟨cs1, h1, hrest⟩
  · rw [hcsr] at h; cases h
  · rw [hcsr] at h; cases h
  rw [hcsr] at h1
  obtain rfl : cs = cs1 := by injection h1 with h1; exact (Prod.mk.inj h1).1
  rcases hrest with ⟨h, -⟩ | ⟨cref1, h2, hrest⟩
  · rw [hC] at h; cases h
  rw [hC] at h2
  obtain rfl : cref = cref1 := Option.some.inj h2
  rcases hrest with ⟨f, h, -⟩ | ⟨c1, e, h, -⟩ | ⟨c1, h3, hrest⟩
  · rw [hcr] at h; cases h
  · rw [hcr] at h; cases h
  rw [hcr] at h3
  obtain rfl : c = c1 := by injection h3 with h3; exact (Prod.mk.inj h3).1
  rcases hrest with ⟨h, -⟩ | ⟨pref1, h4, hrest⟩
  · rw [hP] at h; cases h
  rw [hP] at h4
  obtain rfl : pref = pref1 := Option.some.inj h4
  rcases hrest with ⟨f, h, -⟩ | ⟨p1, e, h, -⟩ | ⟨p1, h5, hrest⟩
  · rw [hpr] at h; cases h
  · rw [hpr] at h; cases h
  rw [hpr] at h5
  obtain rfl : p = p1 := by injection h5 with h5; exact (Prod.mk.inj h5).1
  rcases hrest with ⟨h, -⟩ | ⟨shipping1, h6, hh⟩
  · rw [hS] at h; cases h
  rw [hS] at h6
  obtain rfl : shipping = shipping1 := Option.some.inj h6
  rw [hh]
  refine ⟨?_, rfl⟩
  have f1 : (customer_retrieval w cref.ID).1.filter Call.isStage = [] :=
    List.filter_eq_nil_iff.mpr fun a ha => by
      simp [customer_retrieval_no_stage w _ a ha]
  have f2 : (payment_intent_retrieval w pref.ID).1.filter Call.isStage = [] :=
    List.filter_eq_nil_iff.mpr fun a ha => by
      simp [payment_intent_retrieval_no_stage w _ a ha]
  have f3 : ∀ h m, (unsendable w h m).1.filter Call.isStage = [] := fun h m =>
    List.filter_eq_nil_iff.mpr fun a ha => by
      simp [unsendable_no_stage w h m a ha]
  simp [List.filter_cons, List.filter_append, Call.isStage, f1, f2, f3]

set_option maxRecDepth 20000 in
/-- The run on the sample request: both fetches, one mail with the sample body, "ok". -/
theorem handler_sample_run :
    handler Sample.world Sample.request
      = ([Call.customer_retrieval "cus_1", Call.Do (customer_request "cus_1"),
          Call.UnmarshalJSON [],
          Call.payment_intent_retrieval "pi_1", Call.Do (payment_intent_request "pi_1"),
          Call.UnmarshalJSON [],
          Call.unsendable (header_of "0123456789abcdef") Sample.mail_body,
          Call.SendRawEmail (header_of "0123456789abcdef" ++ Sample.mail_body)],
         .ok (acknowledgment "ok")) := by
  rfl

/-- Claim C16, at an input where it fails: the session names a customer and a
payment intent, both lookups return a nil error and SES would accept any
message, but the customer fetched has no shipping details.  The handler does
not call `unsendable` and does not answer "ok": it panics in `email_body`,
which reads `customer.Shipping.Phone` through the nil pointer. -/
theorem C16_handler_panics_without_shipping :
    (customer_retrieval Sample.world_no_shipping "cus_1").2
      = .ok (Sample.customer_no_shipping, none)
    ∧ (payment_intent_retrieval Sample.world_no_shipping "pi_1").2
      = .ok (Sample.payment_intent, none)
    ∧ (∀ data, Sample.world_no_shipping.SendRawEmail data = none)
    ∧ handler Sample.world_no_shipping Sample.request
      = ([Call.customer_retrieval "cus_1", Call.Do (customer_request "cus_1"),
          Call.UnmarshalJSON [],
          Call.payment_intent_retrieval "pi_1", Call.Do (payment_intent_request "pi_1"),
          Call.UnmarshalJSON []],
         .error (.panic "invalid memory address or nil pointer dereference")) :=
  ⟨by rfl, by rfl, fun _ => rfl, by rfl⟩

theorem filter_stage_customer (w : World) (id : String) :
    (customer_retrieval w id).1.filter Call.isStage = [] :=
  (customer_retrieval_remote w id).2

theorem filter_stage_payment_intent (w : World) (id : String) :
    (payment_intent_retrieval w id).1.filter Call.isStage = [] :=
  (payment_intent_retrieval_remote w id).2

theorem filter_stage_unsendable (w : World) (h m : Bytes) :
    (unsendable w h m).1.filter Call.isStage = [] :=
  List.filter_eq_nil_iff.mpr fun a ha => by simp [unsendable_no_stage w h m a ha]

theorem filter_remote_customer_ok (w : World) (id : String) (c : Customer)
    (h : (customer_retrieval w id).2 = .ok (c, none)) :
    (customer_retrieval w id).1.filter Call.isRemote = [Call.Do (customer_request id)] := by
  obtain ⟨body, hb⟩ := customer_retrieval_ok w id c h
  rw [hb]
  rfl

theorem filter_remote_payment_intent_ok (w : World) (id : String) (p : PaymentIntent)
    (h : (payment_intent_retrieval w id).2 = .ok (p, none)) :
    (payment_intent_retrieval w id).1.filter Call.isRemote
      = [Call.Do (payment_intent_request id)] := by
  obtain ⟨body, hb⟩ := payment_intent_retrieval_ok w id p h
  rw [hb]
  rfl

theorem filter_remote_unsendable (w : World) (h m : Bytes) :
    (unsendable w h m).1.filter Call.isRemote = []
    ∨ (unsendable w h m).1.filter Call.isRemote = [Call.SendRawEmail (h ++ m)] := by
  rcases unsendable_calls w h m with he | he <;> rw [he]
  · exact Or.inl rfl
  · exact Or.inr rfl

/-- The four depths a run of `handler` can reach, with the stage markers and
the remote calls of its trace and the ways it can end at that depth. -/
theorem handler_stage_cases (w : World) (request : APIGatewayProxyRequest) :
    ((handler w request).1 = []
      ∧ ((∃ fault, (handler w request).2 = .error fault)
        ∨ (handler w request).2 = .ok (acknowledgment "couldn't retrieve checkout session")
        ∨ (handler w request).2 = .ok (acknowledgment "unspecified customer")))
    ∨ (∃ cs cref, checkout_session_retrieval w request = .ok (cs, none)
      ∧ cs.Customer = some cref
      ∧ (handler w request).1.filter Call.isStage = [Call.customer_retrieval cref.ID]
      ∧ ((handler w request).1.filter Call.isRemote = []
        ∨ (handler w request).1.filter Call.isRemote = [Call.Do (customer_request cref.ID)])
      ∧ ((∃ fault, (handler w request).2 = .error fault)
        ∨ (handler w request).2 = .ok (acknowledgment "couldn't retrieve customer")
        ∨ (handler w request).2 = .ok (acknowledgment "unspecified payment intent")))
    ∨ (∃ cs cref c pref, checkout_session_retrieval w request = .ok (cs, none)
      ∧ cs.Customer = some cref ∧ (customer_retrieval w cref.ID).2 = .ok (c, none)
      ∧ cs.PaymentIntent = some pref
      ∧ (handler w request).1.filter Call.isStage
          = [Call.customer_retrieval cref.ID, Call.payment_intent_retrieval pref.ID]
      ∧ ((handler w request).1.filter Call.isRemote = [Call.Do (customer_request cref.ID)]
        ∨ (handler w request).1.filter Call.isRemote
            = [Call.Do (customer_request cref.ID), Call.Do (payment_intent_request pref.ID)])
      ∧ ((∃ fault, (handler w request).2 = .error fault)
        ∨ (handler w request).2 = .ok (acknowledgment "couldn't retrieve payment intent")))
    ∨ (∃ cs cref c pref p h m, checkout_session_retrieval w request = .ok (cs, none)
      ∧ cs.Customer = some cref ∧ (customer_retrieval w cref.ID).2 = .ok (c, none)
      ∧ cs.PaymentIntent = some pref ∧ (payment_intent_retrieval w pref.ID).2 = .ok (p, none)
      ∧ (handler w request).1.filter Call.isStage
          = [Call.customer_retrieval cref.ID, Call.payment_intent_retrieval pref.ID,
             Call.unsendable h m]
      ∧ ((handler w request).1.filter Call.isRemote
            = [Call.Do (customer_request cref.ID), Call.Do (payment_intent_request pref.ID)]
        ∨ (handler w request).1.filter Call.isRemote
            = [Call.Do (customer_request cref.ID), Call.Do (payment_intent_request pref.ID),
               Call.SendRawEmail (h ++ m)])
      ∧ (handler w request).2
          = .ok (acknowledgment
              (if (unsendable w h m).2 = none then "ok" else "couldn't send email"))) := by
  rcases handler_cases w request with
    ⟨f, -, hh⟩ | ⟨cs, e, -, hh⟩ | ⟨cs, hcsr, ⟨-, hh⟩ | ⟨cref, hC, hrest⟩⟩
  · exact Or.inl ⟨by rw [hh], Or.inl ⟨f, by rw [hh]⟩⟩
  · exact Or.inl ⟨by rw [hh], Or.inr (Or.inl (by rw [hh]))⟩
  · exact Or.inl ⟨by rw [hh], Or.inr (Or.inr (by rw [hh]))⟩
  have one : ∀ r, handler w request
        = (Call.customer_retrieval cref.ID :: (customer_retrieval w cref.ID).1, r) →
      (handler w request).1.filter Call.isStage = [Call.customer_retrieval cref.ID]
      ∧ ((handler w request).1.filter Call.isRemote = []
        ∨ (handler w request).1.filter Call.isRemote
            = [Call.Do (customer_request cref.ID)]) := by
    intro r hh
    rw [hh]
    refine ⟨by simp [List.filter_cons, Call.isStage, filter_stage_customer], ?_⟩
    rcases (customer_retrieval_remote w cref.ID).1 with h | h
    · exact Or.inl (by simp [List.filter_cons, Call.isRemote, h])
    · exact Or.inr (by simp [List.filter_cons, Call.isRemote, h])
  rcases hrest with ⟨f, -, hh⟩ | ⟨c, e, -, hh⟩ | ⟨c, hcr, ⟨-, hh⟩ | ⟨pref, hP, hrest⟩⟩
  · exact Or.inr (Or.inl ⟨cs, cref, hcsr, hC, (one _ hh).1, (one _ hh).2,
      Or.inl ⟨f, by rw [hh]⟩⟩)
  · exact Or.inr (Or.inl ⟨cs, cref, hcsr, hC, (one _ hh).1, (one _ hh).2,
      Or.inr (Or.inl (by rw [hh]))⟩)
  · exact Or.inr (Or.inl ⟨cs, cref, hcsr, hC, (one _ hh).1, (one _ hh).2,
      Or.inr (Or.inr (by rw [hh]))⟩)
  have two : ∀ r, handler w request
        = (Call.customer_retrieval cref.ID :: (customer_retrieval w cref.ID).1
            ++ Call.payment_intent_retrieval pref.ID :: (payment_intent_retrieval w pref.ID).1,
           r) →
      (handler w request).1.filter Call.isStage
          = [Call.customer_retrieval cref.ID, Call.payment_intent_retrieval pref.ID]
      ∧ ((handler w request).1.filter Call.isRemote = [Call.Do (customer_request cref.ID)]
        ∨ (handler w request).1.filter Call.isRemote
            = [Call.Do (customer_request cref.ID),
               Call.Do (payment_intent_request pref.ID)]) := by
    intro r hh
    rw [hh]
    refine ⟨by simp [List.filter_cons, List.filter_append, Call.isStage,
      filter_stage_customer, filter_stage_payment_intent], ?_⟩
    have h1 := filter_remote_customer_ok w cref.ID c hcr
    rcases (payment_intent_retrieval_remote w pref.ID).1 with h | h
    · exact Or.inl (by simp [List.filter_cons, List.filter_append, Call.isRemote, h, h1])
    · exact Or.inr (by simp [List.filter_cons, List.filter_append, Call.isRemote, h, h1])
  rcases hrest with ⟨f, -, hh⟩ | ⟨p, e, -, hh⟩ | ⟨p, hpr, ⟨-, hh⟩ | ⟨shipping, -, hh⟩⟩
  · exact Or.inr (Or.inr (Or.inl ⟨cs, cref, c, pref, hcsr, hC, hcr, hP, (two _ hh).1,
      (two _ hh).2, Or.inl ⟨f, by rw [hh]⟩⟩))
  · exact Or.inr (Or.inr (Or.inl ⟨cs, cref, c, pref, hcsr, hC, hcr, hP, (two _ hh).1,
      (two _ hh).2, Or.inr (by rw [hh])⟩))
  · exact Or.inr (Or.inr (Or.inl ⟨cs, cref, c, pref, hcsr, hC, hcr, hP, (two _ hh).1,
      (two _ hh).2, Or.inl ⟨_, by rw [hh]⟩⟩))
  · refine Or.inr (Or.inr (Or.inr ⟨cs, cref, c, pref, p, header_of w.randomBoundary,
      part_header w.randomBoundary ++ text_part cs c shipping p
        ++ utf8 ("\r\n--" ++ w.randomBoundary ++ "--\r\n"), hcsr, hC, hcr, hP, hpr, ?_, ?_, ?_⟩))
    · rw [hh]
      simp [List.filter_cons, List.filter_append, Call.isStage, filter_stage_customer,
        filter_stage_payment_intent, filter_stage_unsendable]
    · have h1 := filter_remote_customer_ok w cref.ID c hcr
      have h2 := filter_remote_payment_intent_ok w pref.ID p hpr
      rw [hh]
      rcases filter_remote_unsendable w (header_of w.randomBoundary)
        (part_header w.randomBoundary ++ text_part cs c shipping p
          ++ utf8 ("\r\n--" ++ w.randomBoundary ++ "--\r\n")) with h | h
      · exact Or.inl (by
          simp only [List.filter_cons, List.filter_append, Call.isRemote, h, h1, h2]
          simp)
      · exact Or.inr (by
          simp only [List.filter_cons, List.filter_append, Call.isRemote, h, h1, h2]
          simp)
    · rw [hh]

theorem mem_filter_stage (T : List Call) (c : Call) (hc : c ∈ T) (hs : c.isStage = true) :
    c ∈ T.filter Call.isStage :=
  List.mem_filter.mpr ⟨hc, hs⟩

theorem mem_of_filter_stage (T : List Call) (c : Call) (hc : c ∈ T.filter Call.isStage) :
    c ∈ T :=
  (List.mem_filter.mp hc).1

/-- Claim C17: in every invocation of `handler`, the stage markers of the trace
are the start of [customer fetch, payment intent fetch, mail send], and so are
the remote calls [request for the customer, request for the payment intent,
SES call]: at most three, each kind at most once, in this order.  The customer
fetch is attempted only after verification succeeded, the payment intent fetch
only after the customer fetch also returned a nil error, the mail send only
after both fetches did; and the acknowledgment is "ok" if and only if
`unsendable` was called and returned a nil error. -/
theorem C17_call_order (w : World) (request : APIGatewayProxyRequest) :
    (∃ id1 id2 h m, (handler w request).1.filter Call.isStage
        <+: [Call.customer_retrieval id1, Call.payment_intent_retrieval id2,
             Call.unsendable h m])
    ∧ (∃ id1 id2 data, (handler w request).1.filter Call.isRemote
        <+: [Call.Do (customer_request id1), Call.Do (payment_intent_request id2),
             Call.SendRawEmail data])
    ∧ (∀ id, Call.customer_retrieval id ∈ (handler w request).1 →
        ∃ cs cref, checkout_session_retrieval w request = .ok (cs, none)
          ∧ cs.Customer = some cref ∧ cref.ID = id)
    ∧ (∀ id, Call.payment_intent_retrieval id ∈ (handler w request).1 →
        ∃ cs cref c pref, checkout_session_retrieval w request = .ok (cs, none)
          ∧ cs.Customer = some cref ∧ (customer_retrieval w cref.ID).2 = .ok (c, none)
          ∧ cs.PaymentIntent = some pref ∧ pref.ID = id)
    ∧ (∀ h m, Call.unsendable h m ∈ (handler w request).1 →
        ∃ cs cref c pref p, checkout_session_retrieval w request = .ok (cs, none)
          ∧ cs.Customer = some cref ∧ (customer_retrieval w cref.ID).2 = .ok (c, none)
          ∧ cs.PaymentIntent = some pref
          ∧ (payment_intent_retrieval w pref.ID).2 = .ok (p, none))
    ∧ ((handler w request).2 = .ok (acknowledgment "ok")
        ↔ ∃ h m, Call.unsendable h m ∈ (handler w request).1
            ∧ (unsendable w h m).2 = none) := by
  have hack : ∀ s : String, s ≠ "ok" →
      (Except.ok (acknowledgment s) : Except Fault (APIGatewayProxyResponse × Option Error))
        ≠ .ok (acknowledgment "ok") := by
    intro s hs h
    apply hs
    simpa [acknowledgment] using h
  rcases handler_stage_cases w request with
    ⟨hT, hr⟩ | ⟨cs, cref, hcsr, hC, hS, hR, hr⟩
    | ⟨cs, cref, c, pref, hcsr, hC, hcr, hP, hS, hR, hr⟩
    | ⟨cs, cref, c, pref, p, h0, m0, hcsr, hC, hcr, hP, hpr, hS, hR, hr⟩
  · -- stopped before the first fetch
    refine ⟨⟨"", "", [], [], by rw [hT]; simp⟩, ⟨"", "", [], by rw [hT]; simp⟩,
      by rw [hT]; simp, by rw [hT]; simp, by rw [hT]; simp, ?_⟩
    rw [hT]
    constructor
    · intro h
      rcases hr with ⟨f, hr⟩ | hr | hr <;> rw [hr] at h
      · cases h
      · exact absurd h (hack _ (by decide))
      · exact absurd h (hack _ (by decide))
    · rintro ⟨h, m, hm, -⟩
      simp at hm
  · -- stopped at or after the customer fetch
    refine ⟨⟨cref.ID, "", [], [], by rw [hS]; simp⟩, ⟨cref.ID, "", [], ?_⟩, ?_, ?_, ?_, ?_⟩
    · rcases hR with hR | hR <;> (rw [hR]; simp)
    · intro id hm
      have := mem_filter_stage _ _ hm rfl
      rw [hS] at this
      simp at this
      exact ⟨cs, cref, hcsr, hC, this.symm⟩
    · intro id hm
      have := mem_filter_stage _ _ hm rfl
      rw [hS] at this
      simp at this
    · intro h m hm
      have := mem_filter_stage _ _ hm rfl
      rw [hS] at this
      simp at this
    · constructor
      · intro h
        rcases hr with ⟨f, hr⟩ | hr | hr <;> rw [hr] at h
        · cases h
        · exact absurd h (hack _ (by decide))
        · exact absurd h (hack _ (by decide))
      · rintro ⟨h, m, hm, -⟩
        have := mem_filter_stage _ _ hm rfl
        rw [hS] at this
        simp at this
  · -- stopped at or after the payment intent fetch
    refine ⟨⟨cref.ID, pref.ID, [], [], by rw [hS]; simp⟩, ⟨cref.ID, pref.ID, [], ?_⟩,
      ?_, ?_, ?_, ?_⟩
    · rcases hR with hR | hR <;> (rw [hR]; simp)
    · intro id hm
      have := mem_filter_stage _ _ hm rfl
      rw [hS] at this
      simp at this
      exact ⟨cs, cref, hcsr, hC, this.symm⟩
    · intro id hm
      have := mem_filter_stage _ _ hm rfl
      rw [hS] at this
      simp at this
      exact ⟨cs, cref, c, pref, hcsr, hC, hcr, hP, this.symm⟩
    · intro h m hm
      have := mem_filter_stage _ _ hm rfl
      rw [hS] at this
      simp at this
    · constructor
      · intro h
        rcases hr with ⟨f, hr⟩ | hr <;> rw [hr] at h
        · cases h
        · exact absurd h (hack _ (by decide))
      · rintro ⟨h, m, hm, -⟩
        have := mem_filter_stage _ _ hm rfl
        rw [hS] at this
        simp at this
  · -- reached the mail send
    refine ⟨⟨cref.ID, pref.ID, h0, m0, by rw [hS]⟩, ⟨cref.ID, pref.ID, h0 ++ m0, ?_⟩,
      ?_, ?_, ?_, ?_⟩
    · rcases hR with hR | hR
      · rw [hR]
        simp
      · rw [hR]
    · intro id hm
      have := mem_filter_stage _ _ hm rfl
      rw [hS] at this
      simp at this
      exact ⟨cs, cref, hcsr, hC, this.symm⟩
    · intro id hm
      have := mem_filter_stage _ _ hm rfl
      rw [hS] at this
      simp at this
      exact ⟨cs, cref, c, pref, hcsr, hC, hcr, hP, this.symm⟩
    · intro h m hm
      exact ⟨cs, cref, c, pref, p, hcsr, hC, hcr, hP, hpr⟩
    · rw [hr]
      have hin : Call.unsendable h0 m0 ∈ (handler w request).1 :=
        mem_of_filter_stage _ _ (by rw [hS]; simp)
      constructor
      · intro h
        refine ⟨h0, m0, hin, ?_⟩
        by_contra hne
        rw [if_neg hne] at h
        exact absurd h (hack _ (by decide))
      · rintro ⟨h, m, hm, he⟩
        have := mem_filter_stage _ _ hm rfl
        rw [hS] at this
        simp at this
        obtain ⟨rfl, rfl⟩ := this
        rw [if_pos he]

/-- Claim C18, at an input where it fails: for a customer with no shipping
details (`Shipping` nil, as decoded from `"shipping": null`) `email_body`,
called with an empty in-memory buffer, does not return a writer and a nil
error: it panics when it reads `customer.Shipping.Phone`. -/
theorem C18_email_body_panics_without_shipping :
    Sample.customer_no_shipping.Shipping = none
    ∧ email_body Sample.world Sample.session Sample.customer_no_shipping
        Sample.payment_intent []
      = .error (.panic "invalid memory address or nil pointer dereference") :=
  ⟨by rfl, by rfl⟩

/-- The message with the one part that `email_body` creates: the opening
delimiter line, the two header lines, a blank line, the content, and what
`Close` writes. -/
theorem multipart_message_text (b : String) (content : Bytes) :
    multipart_message b [(text_part_header, content)]
      = part_header b ++ content ++ utf8 ("\r\n--" ++ b ++ "--\r\n") := by
  simp only [multipart_message, write_parts, text_part_header, MultipartWriter.CreatePart,
    MultipartWriter.Close, headerLines_text, part_header, List.append_assoc, List.nil_append]
  rfl

/-- A message with no part is the closing delimiter alone, and every further
part of a message starts with a delimiter line of its own. -/
theorem multipart_message_parts (b : String) (h1 h2 : MIMEHeader) (c1 c2 : Bytes) :
    multipart_message b [] = utf8 ("\r\n--" ++ b ++ "--\r\n")
    ∧ multipart_message b [(h1, c1), (h2, c2)]
        = utf8 ("--" ++ b ++ "\r\n") ++ headerLines h1 ++ utf8 "\r\n" ++ c1
          ++ utf8 ("\r\n--" ++ b ++ "\r\n") ++ headerLines h2 ++ utf8 "\r\n" ++ c2
          ++ utf8 ("\r\n--" ++ b ++ "--\r\n") := by
  constructor
  · rfl
  · simp only [multipart_message, write_parts, MultipartWriter.CreatePart,
      MultipartWriter.Close, List.append_assoc, List.nil_append]
    rfl

/-- The line of the mail header that carries the boundary. -/
theorem header_of_boundary (b : String) :
    utf8 ("boundary=\"" ++ b ++ "\"") <:+: header_of b := by
  have e : "Content-Type: multipart/mixed; boundary=\"" ++ b ++ "\"\n"
      = "Content-Type: multipart/mixed; " ++ ("boundary=\"" ++ b ++ "\"") ++ "\n" := by
    have e1 : "Content-Type: multipart/mixed; boundary=\""
        = "Content-Type: multipart/mixed; " ++ "boundary=\"" := by decide
    have e2 : "\"\n" = "\"" ++ "\n" := by decide
    rw [e1, e2]
    simp only [String.append_assoc]
  refine ⟨utf8 "MIME-Version: 1.0\n" ++ utf8 "Content-Disposition: inline\n"
      ++ utf8 "Content-Type: multipart/mixed; ",
    utf8 "\n" ++ utf8 ("From: " ++ sender ++ "\n") ++ utf8 ("To: " ++ recipient ++ "\n")
      ++ utf8 ("Subject: " ++ subject ++ "\n\n"), ?_⟩
  simp only [header_of, e, utf8_append, List.append_assoc, List.nil_append]

/-- Claim C19: whenever `handler` reaches dispatch, the header handed to
`unsendable` is `header_of` of the writer's boundary and carries that token as
`boundary="<boundary>"`; the body handed over is the closed multipart message
with that same boundary and exactly one part, whose header declares
Content-Type "text/plain; charset=utf-8" and Content-Transfer-Encoding
"quoted-printable" and whose content is the composed text.  The body begins
with the opening delimiter "--<boundary>" and ends with the closing delimiter
"--<boundary>--", on the last line of the body, terminated by the CRLF that
`Close` writes. -/
theorem C19_dispatch_body (w : World) (request : APIGatewayProxyRequest) (h m : Bytes)
    (hmem : Call.unsendable h m ∈ (handler w request).1) :
    h = header_of w.randomBoundary
    ∧ utf8 ("boundary=\"" ++ w.randomBoundary ++ "\"") <:+: h
    ∧ (∃ cs c shipping p,
        m = multipart_message w.randomBoundary
              [(text_part_header, text_part cs c shipping p)]
        ∧ m = utf8 ("--" ++ w.randomBoundary) ++ utf8 "\r\n"
              ++ utf8 "Content-Transfer-Encoding: quoted-printable\r\n"
              ++ utf8 "Content-Type: text/plain; charset=utf-8\r\n"
              ++ utf8 "\r\n"
              ++ text_part cs c shipping p
              ++ utf8 "\r\n" ++ utf8 ("--" ++ w.randomBoundary ++ "--") ++ utf8 "\r\n")
    ∧ utf8 ("--" ++ w.randomBoundary) <+: m
    ∧ utf8 ("--" ++ w.randomBoundary ++ "--") ++ utf8 "\r\n" <:+ m := by
  have hs := mem_filter_stage _ _ hmem rfl
  have hclose : ∀ b : String,
      utf8 ("\r\n--" ++ b ++ "--\r\n") = utf8 "\r\n" ++ utf8 ("--" ++ b ++ "--") ++ utf8 "\r\n" := by
    intro b
    have e : "\r\n--" ++ b ++ "--\r\n" = "\r\n" ++ ("--" ++ b ++ "--") ++ "\r\n" := by
      have e1 : "\r\n--" = "\r\n" ++ "--" := by decide
      have e2 : "--\r\n" = "--" ++ "\r\n" := by decide
      rw [e1, e2]
      simp only [String.append_assoc]
    rw [e, utf8_append, utf8_append]
  rcases handler_cases w request with
    ⟨f, -, hh⟩ | ⟨cs, e, -, hh⟩ | ⟨cs, hcsr, ⟨-, hh⟩ | ⟨cref, hC, hrest⟩⟩
  · rw [hh] at hs; simp at hs
  · rw [hh] at hs; simp at hs
  · rw [hh] at hs; simp at hs
  rcases hrest with ⟨f, -, hh⟩ | ⟨c, e, -, hh⟩ | ⟨c, hcr, ⟨-, hh⟩ | ⟨pref, hP, hrest⟩⟩
  · rw [hh] at hs
    simp [List.filter_cons, Call.isStage, filter_stage_customer] at hs
  · rw [hh] at hs
    simp [List.filter_cons, Call.isStage, filter_stage_customer] at hs
  · rw [hh] at hs
    simp [List.filter_cons, Call.isStage, filter_stage_customer] at hs
  rcases hrest with ⟨f, -, hh⟩ | ⟨p, e, -, hh⟩ | ⟨p, hpr, ⟨-, hh⟩ | ⟨shipping, -, hh⟩⟩
  · rw [hh] at hs
    simp [List.filter_cons, List.filter_append, Call.isStage, filter_stage_customer,
      filter_stage_payment_intent] at hs
  · rw [hh] at hs
    simp [List.filter_cons, List.filter_append, Call.isStage, filter_stage_customer,
      filter_stage_payment_intent] at hs
  · rw [hh] at hs
    simp [List.filter_cons, List.filter_append, Call.isStage, filter_stage_customer,
      filter_stage_payment_intent] at hs
  · rw [hh] at hs
    simp only [List.filter_cons, List.filter_append, Call.isStage, filter_stage_customer,
      filter_stage_payment_intent, filter_stage_unsendable, if_true, List.nil_append,
      List.cons_append, List.append_nil, List.mem_cons, reduceCtorEq, false_or,
      Call.unsendable.injEq, List.mem_nil_iff, or_false] at hs
    obtain ⟨rfl, rfl⟩ := hs
    refine ⟨rfl, header_of_boundary _, ⟨cs, c, shipping, p,
      (multipart_message_text _ _).symm, ?_⟩, ?_, ?_⟩
    · simp only [part_header, hclose, utf8_append, List.append_assoc]
    · exact ⟨utf8 "\r\n" ++ utf8 "Content-Transfer-Encoding: quoted-printable\r\n"
          ++ utf8 "Content-Type: text/plain; charset=utf-8\r\n" ++ utf8 "\r\n"
          ++ text_part cs c shipping p ++ utf8 ("\r\n--" ++ w.randomBoundary ++ "--\r\n"),
        by simp only [part_header, utf8_append, List.append_assoc]⟩
    · exact ⟨part_header w.randomBoundary ++ text_part cs c shipping p ++ utf8 "\r\n",
        by simp only [hclose, List.append_assoc]⟩

theorem C19_dispatch_body_witness :
    header_of "0123456789abcdef" = header_of Sample.world.randomBoundary
    ∧ utf8 ("boundary=\"" ++ Sample.world.randomBoundary ++ "\"")
        <:+: header_of "0123456789abcdef"
    ∧ (∃ cs c shipping p,
        Sample.mail_body = multipart_message Sample.world.randomBoundary
              [(text_part_header, text_part cs c shipping p)]
        ∧ Sample.mail_body = utf8 ("--" ++ Sample.world.randomBoundary) ++ utf8 "\r\n"
              ++ utf8 "Content-Transfer-Encoding: quoted-printable\r\n"
              ++ utf8 "Content-Type: text/plain; charset=utf-8\r\n"
              ++ utf8 "\r\n"
              ++ text_part cs c shipping p
              ++ utf8 "\r\n" ++ utf8 ("--" ++ Sample.world.randomBoundary ++ "--")
              ++ utf8 "\r\n")
    ∧ utf8 ("--" ++ Sample.world.randomBoundary) <+: Sample.mail_body
    ∧ utf8 ("--" ++ Sample.world.randomBoundary ++ "--") ++ utf8 "\r\n"
        <:+ Sample.mail_body :=
  C19_dispatch_body Sample.world Sample.request (header_of "0123456789abcdef")
    Sample.mail_body (by rw [handler_sample_run]; simp)

/-- Whatever the collaborators do, `handler` never answers "couldn't compose email". -/
theorem handler_never_compose_error (w : World) (request : APIGatewayProxyRequest) :
    (handler w request).2 ≠ .ok (acknowledgment "couldn't compose email") := by
  have hack : ∀ s : String, s ≠ "couldn't compose email" →
      (Except.ok (acknowledgment s) : Except Fault (APIGatewayProxyResponse × Option Error))
        ≠ .ok (acknowledgment "couldn't compose email") := by
    intro s hs h
    apply hs
    simpa [acknowledgment] using h
  rcases handler_stage_cases w request with
    ⟨-, hr⟩ | ⟨cs, cref, -, -, -, -, hr⟩
    | ⟨cs, cref, c, pref, -, -, -, -, -, -, hr⟩
    | ⟨cs, cref, c, pref, p, h0, m0, -, -, -, -, -, -, -, hr⟩
  · rcases hr with ⟨f, hr⟩ | hr | hr <;> rw [hr]
    · simp
    · exact hack _ (by decide)
    · exact hack _ (by decide)
  · rcases hr with ⟨f, hr⟩ | hr | hr <;> rw [hr]
    · simp
    · exact hack _ (by decide)
    · exact hack _ (by decide)
  · rcases hr with ⟨f, hr⟩ | hr <;> rw [hr]
    · simp
    · exact hack _ (by decide)
  · rw [hr]
    split_ifs <;> exact hack _ (by decide)

/-- Claim C20, at an input where it fails: both fetches return a nil error, so
the run gets past them, but the customer fetched has no shipping details (and
SES is down).  The run ends neither in "ok" nor in "couldn't send email": it
panics in `email_body` before `unsendable` is called. -/
theorem C20_run_past_fetches_panics :
    (handler Sample.world_no_shipping_mail_down Sample.request).1.filter Call.isStage
      = [Call.customer_retrieval "cus_1", Call.payment_intent_retrieval "pi_1"]
    ∧ (customer_retrieval Sample.world_no_shipping_mail_down "cus_1").2
      = .ok (Sample.customer_no_shipping, none)
    ∧ (payment_intent_retrieval Sample.world_no_shipping_mail_down "pi_1").2
      = .ok (Sample.payment_intent, none)
    ∧ (handler Sample.world_no_shipping_mail_down Sample.request).2
      = .error (.panic "invalid memory address or nil pointer dereference")
    ∧ (handler Sample.world_no_shipping_mail_down Sample.request).2
      ≠ .ok (acknowledgment "ok")
    ∧ (handler Sample.world_no_shipping_mail_down Sample.request).2
      ≠ .ok (acknowledgment "couldn't send email") := by
  have h : (handler Sample.world_no_shipping_mail_down Sample.request).2
      = .error (.panic "invalid memory address or nil pointer dereference") := by rfl
  refine ⟨by rfl, by rfl, by rfl, h, ?_, ?_⟩ <;> rw [h] <;> simp

end Whooky
